import Mathlib

/-!
Verification development for the NMR buffer pH estimation core.

The JavaScript numerical modules (`bufferModel.js`, `peakAssignment.js`,
`fitting.js`, `uncertainty.js`, `validation.js`) are shallowly embedded here:
JS floating-point numbers become real numbers, JS objects become structures,
JS `Map`s and plain objects used as dictionaries become association lists,
functions that may `throw` return `Except String`.  The external
Levenberg-Marquardt optimizer (the `ml-levenberg-marquardt` dependency, not
part of this repository) is abstracted as an explicit function argument of
`fitParameters`.
-/

namespace NmrPH

/-! ## bufferModel.js -/

/-- Physical constant: gas constant (J/mol/K), `const R` in bufferModel.js. -/
def Rgas : ℝ := 8.314462618

/-- Natural logarithm of 10, `const LN10` in bufferModel.js. -/
noncomputable def LN10 : ℝ := Real.log 10

/-- Davies equation coefficient A at 25 degrees C, `const DAVIES_A`. -/
def DAVIES_A : ℝ := 0.5085

/-- A database value that is either a plain number or a `[value, uncertainty]`
pair (see `getValue` in bufferModel.js). -/
inductive ValU where
  | num (v : ℝ)
  | pair (v u : ℝ)

/-- Extract the value from a value-with-optional-uncertainty
(`getValue` in bufferModel.js). -/
def getValue : ValU → ℝ
  | .num v => v
  | .pair v _ => v

/-- Ionic strength correction model selector (`ionic_strength_model` strings
in the database; the JS `switch` treats any unrecognized string like
`'none'`, so the closed enum is adequate). -/
inductive IonicModel where
  | davies
  | extended_debye_huckel
  | empirical
  | nomodel

/-- A pKa parameter record from the buffer database. Optional JS fields are
modelled with `Option`. -/
structure PKaParams where
  pKa : ValU
  dH_kJ_mol : Option ValU
  dCp_J_mol_K : Option ValU
  protonated_charge : Option ℝ
  ion_size_angstrom : Option ℝ
  ionic_strength_coefficient_per_M : Option ValU
  ionic_strength_model : Option IonicModel

/-- `calculatePKaTemperature` from bufferModel.js: van't Hoff temperature
correction with heat-capacity term.  The two `if (x !== 0)` guards of the JS
code are kept as `if` terms. -/
noncomputable def calculatePKaTemperature (pKaParams : PKaParams) (temperature : ℝ)
    (referenceTemperature : ℝ) : ℝ :=
  let pKaRef := getValue pKaParams.pKa
  let dH := getValue (pKaParams.dH_kJ_mol.getD (.num 0)) * 1000
  let dCp := getValue (pKaParams.dCp_J_mol_K.getD (.num 0))
  let T := temperature
  let Tref := referenceTemperature
  let enthalpyTerm := if dH ≠ 0 then (dH / (Rgas * LN10)) * (1/T - 1/Tref) else 0
  let heatCapTerm :=
    if dCp ≠ 0 then (dCp / (Rgas * LN10)) * (Tref/T - 1 + Real.log (T/Tref)) else 0
  pKaRef + enthalpyTerm + heatCapTerm

/-- `calculatePKaIonicStrengthDavies` from bufferModel.js. -/
noncomputable def calculatePKaIonicStrengthDavies (pKaParams : PKaParams)
    (ionicStrength : ℝ) : ℝ :=
  if ionicStrength ≤ 0 then 0
  else
    let protonatedCharge := pKaParams.protonated_charge.getD 0
    let deprotonatedCharge := protonatedCharge - 1
    let deltaZSquared :=
      1 + deprotonatedCharge * deprotonatedCharge - protonatedCharge * protonatedCharge
    let sqrtI := Real.sqrt ionicStrength
    let daviesTerm := sqrtI / (1 + sqrtI) - 0.3 * ionicStrength
    DAVIES_A * deltaZSquared * daviesTerm

/-- `calculatePKaIonicStrengthExtendedDH` from bufferModel.js. -/
noncomputable def calculatePKaIonicStrengthExtendedDH (pKaParams : PKaParams)
    (ionicStrength : ℝ) : ℝ :=
  if ionicStrength ≤ 0 then 0
  else
    let protonatedCharge := pKaParams.protonated_charge.getD 0
    let deprotonatedCharge := protonatedCharge - 1
    let ionSize := pKaParams.ion_size_angstrom.getD 4.5
    let deltaZSquared :=
      1 + deprotonatedCharge * deprotonatedCharge - protonatedCharge * protonatedCharge
    let sqrtI := Real.sqrt ionicStrength
    let B := 0.328
    let dhTerm := sqrtI / (1 + B * ionSize * sqrtI)
    DAVIES_A * deltaZSquared * dhTerm

/-- `calculatePKaIonicStrengthEmpirical` from bufferModel.js. -/
noncomputable def calculatePKaIonicStrengthEmpirical (pKaParams : PKaParams)
    (ionicStrength : ℝ) : ℝ :=
  let coefficient := getValue (pKaParams.ionic_strength_coefficient_per_M.getD (.num 0))
  coefficient * ionicStrength

/-- `calculatePKa` from bufferModel.js: temperature correction plus the
ionic strength correction selected by the model enum (default `'davies'`). -/
noncomputable def calculatePKa (pKaParams : PKaParams) (temperature : ℝ)
    (ionicStrength : ℝ) (referenceTemperature : ℝ) : ℝ :=
  let pKa := calculatePKaTemperature pKaParams temperature referenceTemperature
  match pKaParams.ionic_strength_model.getD .davies with
  | .davies => pKa + calculatePKaIonicStrengthDavies pKaParams ionicStrength
  | .extended_debye_huckel =>
      pKa + calculatePKaIonicStrengthExtendedDH pKaParams ionicStrength
  | .empirical => pKa + calculatePKaIonicStrengthEmpirical pKaParams ionicStrength
  | .nomodel => pKa

/-- `ionisationFractions` from bufferModel.js: relative population of state `i`
is the product of `10 ^ (pKa_j - pH)` over `j ≥ i`, and the result is the
list of relative populations normalized by their sum. -/
noncomputable def ionisationFractions (pH : ℝ) (pKaValues : List ℝ) : List ℝ :=
  let n := pKaValues.length + 1
  if n = 1 then [1]
  else
    let relatives := (List.range n).map
      (fun i => ((pKaValues.drop i).map (fun pKa => (10:ℝ) ^ (pKa - pH))).prod)
    let total := relatives.sum
    relatives.map (fun r => r / total)

/-- A limiting-shift record of a resonance (one per ionisation state). -/
structure LimitingShift where
  ionisation_state : ℕ
  shift_ppm : ValU
  temperature_coefficient_ppm_per_K : Option ValU
  ionic_strength_coefficient_ppm_per_M : Option ValU

/-- `calculateLimitingShift` from bufferModel.js: base shift with linear
temperature and ionic-strength corrections. -/
noncomputable def calculateLimitingShift (limitingShift : LimitingShift)
    (temperature ionicStrength referenceTemperature referenceIonicStrength : ℝ) : ℝ :=
  let shift := getValue limitingShift.shift_ppm
  let tempCoeff := getValue (limitingShift.temperature_coefficient_ppm_per_K.getD (.num 0))
  let ionicCoeff :=
    getValue (limitingShift.ionic_strength_coefficient_ppm_per_M.getD (.num 0))
  shift + tempCoeff * (temperature - referenceTemperature)
    + ionicCoeff * (ionicStrength - referenceIonicStrength)

/-- A resonance record of the buffer database. -/
structure Resonance where
  resonance_id : String
  description : String
  limiting_shifts : List LimitingShift

/-- `predictShift` from bufferModel.js: population-weighted sum of corrected
limiting shifts; a state index out of range contributes factor 0
(JS `fractions[stateIndex] ?? 0`). -/
noncomputable def predictShift (resonance : Resonance) (pKaValues : List ℝ)
    (pH temperature ionicStrength referenceTemperature referenceIonicStrength : ℝ) : ℝ :=
  let fractions := ionisationFractions pH pKaValues
  (resonance.limiting_shifts.map (fun limitingShift =>
      (fractions.getD limitingShift.ionisation_state 0) *
        calculateLimitingShift limitingShift temperature ionicStrength
          referenceTemperature referenceIonicStrength)).sum

/-- A buffer record: identity, pKa parameter records, and per-nucleus
resonances (`chemical_shifts`, an object modelled as an association list). -/
structure Buffer where
  buffer_id : String
  buffer_name : String
  sample_id : String
  pKa_parameters : List PKaParams
  chemical_shifts : List (String × List Resonance)

/-- A sample record giving reference conditions. -/
structure Sample where
  reference_temperature_K : ℝ
  reference_ionic_strength_M : ℝ

/-- `getBufferPKaValues` from bufferModel.js: all corrected pKa values of a
buffer, sorted ascending (JS `Array.prototype.sort` with numeric comparator;
an ascending sort of reals is unique, so `insertionSort` models it). -/
noncomputable def getBufferPKaValues (buffer : Buffer) (temperature ionicStrength
    referenceTemperature : ℝ) : List ℝ :=
  List.insertionSort (fun a b => a ≤ b)
    (buffer.pKa_parameters.map
      (fun p => calculatePKa p temperature ionicStrength referenceTemperature))

/-- One entry of the prediction object produced by `predictBufferShifts`. -/
structure ResonancePrediction where
  resonance_id : String
  description : String
  shift : ℝ

/-- `predictBufferShifts` from bufferModel.js: per-nucleus predicted shifts of
one buffer at the given conditions (nucleus-keyed object as assoc list). -/
noncomputable def predictBufferShifts (buffer : Buffer) (pH temperature ionicStrength : ℝ)
    (sample : Option Sample) : List (String × List ResonancePrediction) :=
  let refTemp := (sample.map (fun s => s.reference_temperature_K)).getD 298.15
  let refIonic := (sample.map (fun s => s.reference_ionic_strength_M)).getD 0
  let pKaValues := getBufferPKaValues buffer temperature ionicStrength refTemp
  buffer.chemical_shifts.map (fun entry =>
    (entry.1, entry.2.map (fun resonance =>
      { resonance_id := resonance.resonance_id
        description := resonance.description
        shift := predictShift resonance pKaValues pH temperature ionicStrength
          refTemp refIonic })))

/-! ## peakAssignment.js -/

/-- `DEFAULT_TOLERANCES` from peakAssignment.js (ppm, per nucleus). -/
def DEFAULT_TOLERANCES : List (String × ℝ) :=
  [("1H", 0.5), ("13C", 2.0), ("15N", 2.0), ("19F", 3.0), ("31P", 2.0)]

/-- The tolerance expression of `assignPeaks`
(`tolerances[nucleus] ?? DEFAULT_TOLERANCES[nucleus] ?? 1.0`). -/
def toleranceFor (tolerances : List (String × ℝ)) (nucleus : String) : ℝ :=
  match tolerances.lookup nucleus with
  | some t => t
  | none =>
    match DEFAULT_TOLERANCES.lookup nucleus with
    | some t => t
    | none => 1.0

/-- A flattened prediction entry from `generatePredictions`. -/
structure Prediction where
  buffer_id : String
  buffer_name : String
  resonance_id : String
  description : String
  predicted_shift : ℝ

/-- `generatePredictions` from peakAssignment.js, viewed per nucleus: the JS
code appends, buffer by buffer, each buffer's predictions for each nucleus to
a nucleus-keyed object; the list obtained for a given nucleus is the
concatenation over buffers of that buffer's predictions for the nucleus. -/
noncomputable def generatePredictions (buffers : List Buffer)
    (samplesMap : List (String × Sample)) (pH temperature ionicStrength : ℝ)
    (nucleus : String) : List Prediction :=
  buffers.flatMap (fun buffer =>
    let sample := samplesMap.lookup buffer.sample_id
    let predictions := predictBufferShifts buffer pH temperature ionicStrength sample
    ((predictions.lookup nucleus).getD []).map (fun pred =>
      { buffer_id := buffer.buffer_id
        buffer_name := buffer.buffer_name
        resonance_id := pred.resonance_id
        description := pred.description
        predicted_shift := pred.shift }))

/-- Comparison `x > c` where `x` may be the JS value `Infinity` (modelled as
`none`): `Infinity > c` is always true. -/
def gtOpt (x : Option ℝ) (c : ℝ) : Prop :=
  match x with
  | none => True
  | some d => d > c

noncomputable instance (x : Option ℝ) (c : ℝ) : Decidable (gtOpt x c) :=
  match x with
  | none => isTrue trivial
  | some d => inferInstanceAs (Decidable (d > c))

/-- `calculateConfidence` from peakAssignment.js.  The JS
`nextBestDistance = Infinity` default (no second candidate) is modelled by
`none`; a comparison `Infinity > x` is always true. -/
noncomputable def calculateConfidence (distance tolerance : ℝ)
    (nextBestDistance : Option ℝ) : String :=
  let absDistance := |distance|
  if absDistance > tolerance then "none"
  else if absDistance < tolerance * 0.3 ∧ gtOpt nextBestDistance (tolerance * 0.6) then
    "high"
  else if absDistance < tolerance * 0.6 then "medium"
  else "low"

/-- A prediction decorated with its distance to an observed shift
(the `withDistances` records of `assignSingleShift`). -/
structure ScoredPrediction where
  pred : Prediction
  distance : ℝ
  absDistance : ℝ

/-- The nearest out-of-tolerance candidate retained on an unassigned peak. -/
structure NearestInfo where
  buffer_id : String
  buffer_name : String
  resonance_id : String
  predicted_shift : ℝ
  distance : ℝ

/-- A near-tie alternative recorded for ambiguity reporting. -/
structure AlternativeInfo where
  buffer_id : String
  buffer_name : String
  resonance_id : String
  predicted_shift : ℝ
  distance : ℝ

/-- An assignment record as returned by `assignSingleShift` / `assignPeaks`.
JS returns objects of three shapes; fields absent in a shape are `none`.
The human-readable `message` strings (which interpolate `toFixed` output)
are not modelled. -/
structure Assignment where
  observed_shift : ℝ
  assigned : Bool
  confidence : String
  buffer_id : Option String
  buffer_name : Option String
  resonance_id : Option String
  description : Option String
  predicted_shift : Option ℝ
  residual : Option ℝ
  nearest : Option NearestInfo
  alternatives : List AlternativeInfo
  nucleus : Option String

/-- The record `assignSingleShift` returns when no predictions are available. -/
def noPredictionsAssignment (observedShift : ℝ) : Assignment :=
  { observed_shift := observedShift
    assigned := false
    confidence := "none"
    buffer_id := none
    buffer_name := none
    resonance_id := none
    description := none
    predicted_shift := none
    residual := none
    nearest := none
    alternatives := []
    nucleus := none }

/-- The `withDistances` construction of `assignSingleShift` followed by the
stable sort on absolute distance (JS `Array.prototype.sort` is stable;
`insertionSort` is the stable sort). -/
noncomputable def scoreAndSort (observedShift : ℝ) (predictions : List Prediction) :
    List ScoredPrediction :=
  let withDistances := predictions.map (fun pred =>
    { pred := pred
      distance := observedShift - pred.predicted_shift
      absDistance := |observedShift - pred.predicted_shift| : ScoredPrediction })
  List.insertionSort (fun a b => a.absDistance ≤ b.absDistance) withDistances

/-- `assignSingleShift` from peakAssignment.js: decorate every prediction with
its distance, stable-sort by absolute distance, and score the best candidate
against the second best. -/
noncomputable def assignSingleShift (observedShift : ℝ) (predictions : List Prediction)
    (tolerance : ℝ) : Assignment :=
  match predictions with
  | [] => noPredictionsAssignment observedShift
  | _ :: _ =>
    match scoreAndSort observedShift predictions with
    | [] => noPredictionsAssignment observedShift
    | best :: rest =>
      let nextBest : Option ScoredPrediction := rest.head?
      let nextBestDistance : Option ℝ := nextBest.map (fun nb => nb.absDistance)
      let confidence := calculateConfidence best.absDistance tolerance nextBestDistance
      if confidence = "none" then
        { observed_shift := observedShift
          assigned := false
          confidence := "none"
          buffer_id := none
          buffer_name := none
          resonance_id := none
          description := none
          predicted_shift := none
          residual := none
          nearest := some
            { buffer_id := best.pred.buffer_id
              buffer_name := best.pred.buffer_name
              resonance_id := best.pred.resonance_id
              predicted_shift := best.pred.predicted_shift
              distance := best.distance }
          alternatives := []
          nucleus := none }
      else
        { observed_shift := observedShift
          assigned := true
          confidence := confidence
          buffer_id := some best.pred.buffer_id
          buffer_name := some best.pred.buffer_name
          resonance_id := some best.pred.resonance_id
          description := some best.pred.description
          predicted_shift := some best.pred.predicted_shift
          residual := some best.distance
          nearest := none
          alternatives :=
            match nextBest with
            | some nb =>
              if confidence ≠ "high" ∧ nb.absDistance < tolerance then
                [{ buffer_id := nb.pred.buffer_id
                   buffer_name := nb.pred.buffer_name
                   resonance_id := nb.pred.resonance_id
                   predicted_shift := nb.pred.predicted_shift
                   distance := nb.distance }]
              else []
            | none => []
          nucleus := none }

/-- The `${buffer_id}:${resonance_id}` key used by the `usedPredictions` set. -/
def predKey (p : Prediction) : String :=
  p.buffer_id ++ ":" ++ p.resonance_id

/-- The used-set key of an assigned `Assignment`
(`${assignment.buffer_id}:${assignment.resonance_id}`). -/
def assignmentKey (a : Assignment) : String :=
  a.buffer_id.getD "" ++ ":" ++ a.resonance_id.getD ""

/-- The inner loop of `assignPeaks` over the sorted observed shifts of one
nucleus: filter out predictions whose key is in the used set, assign the
single shift, record the claimed key.  Returns the assignment list and the
grown used set (the JS `Set` is modelled as a list with membership). -/
noncomputable def assignShiftsLoop (nucleusPredictions : List Prediction) (tolerance : ℝ)
    (nucleus : String) :
    List ℝ → List String → List Assignment × List String
  | [], used => ([], used)
  | observedShift :: restShifts, used =>
    let availablePredictions := nucleusPredictions.filter
      (fun p => !(used.contains (predKey p)))
    let assignment := assignSingleShift observedShift availablePredictions tolerance
    let used2 := if assignment.assigned then assignmentKey assignment :: used else used
    let result := assignShiftsLoop nucleusPredictions tolerance nucleus restShifts used2
    ({ assignment with nucleus := some nucleus } :: result.1, result.2)

/-- The outer loop of `assignPeaks` over the nucleus-keyed observation object.
The used-prediction set is shared across all nuclei of one call (the JS
`usedPredictions` set is declared outside the per-nucleus loop). -/
noncomputable def assignPeaksGo (predictions : String → List Prediction)
    (tolerances : List (String × ℝ)) :
    List (String × List ℝ) → List String → List (String × List Assignment)
  | [], _used => []
  | (nucleus, shifts) :: rest, used =>
    let nucleusPredictions := predictions nucleus
    let tolerance := toleranceFor tolerances nucleus
    let sortedShifts := List.insertionSort (fun a b => a ≤ b) shifts
    let result := assignShiftsLoop nucleusPredictions tolerance nucleus sortedShifts used
    (nucleus, result.1) :: assignPeaksGo predictions tolerances rest result.2

/-- `assignPeaks` from peakAssignment.js. -/
noncomputable def assignPeaks (observedShifts : List (String × List ℝ))
    (buffers : List Buffer) (samplesMap : List (String × Sample))
    (pH temperature ionicStrength : ℝ) (tolerances : List (String × ℝ)) :
    List (String × List Assignment) :=
  assignPeaksGo (generatePredictions buffers samplesMap pH temperature ionicStrength)
    tolerances observedShifts []

/-- A flat assigned peak used by the fitter. -/
structure Peak where
  nucleus : String
  observed_shift : ℝ
  buffer_id : String
  resonance_id : String
  predicted_shift : ℝ

/-- `getAssignedPeaksForFitting` from peakAssignment.js. -/
noncomputable def getAssignedPeaksForFitting
    (assignments : List (String × List Assignment)) : List Peak :=
  assignments.flatMap (fun entry =>
    entry.2.filterMap (fun a =>
      if a.assigned then
        some { nucleus := entry.1
               observed_shift := a.observed_shift
               buffer_id := a.buffer_id.getD ""
               resonance_id := a.resonance_id.getD ""
               predicted_shift := a.predicted_shift.getD 0 }
      else none))

/-! ## uncertainty.js

JS functions that may `throw` (here: the residual function, which throws on a
missing buffer or resonance) are modelled as returning `Except String`; the
`try { ... } catch` of `calculateParameterUncertainties` becomes a `match` on
the propagated error.  The pure matrix loops cannot throw. -/

/-- Copy `params` and add `step` to entry `j`
(the `paramsPlus` / `paramsMinus` construction of `calculateJacobian`). -/
noncomputable def bumped (params : List ℝ) (j : ℕ) (step : ℝ) : List ℝ :=
  params.set j (params.getD j 0 + step)

/-- The per-parameter loop of `calculateJacobian`: for each parameter index
`j`, evaluate the residual function at forward and backward steps and form
the central-difference column. -/
noncomputable def jacobianColumns (residualFn : List ℝ → Except String (List ℝ))
    (params : List ℝ) (step : ℝ) (nResiduals : ℕ) :
    List ℕ → Except String (List (List ℝ))
  | [] => .ok []
  | j :: js =>
    match residualFn (bumped params j step) with
    | .error e => .error e
    | .ok residualsPlus =>
      match residualFn (bumped params j (-step)) with
      | .error e => .error e
      | .ok residualsMinus =>
        match jacobianColumns residualFn params step nResiduals js with
        | .error e => .error e
        | .ok cols =>
          .ok (((List.range nResiduals).map (fun i =>
            (residualsPlus.getD i 0 - residualsMinus.getD i 0) / (2 * step))) :: cols)

/-- `calculateJacobian` from uncertainty.js: numeric Jacobian by central
differences, rows indexed by residual, columns by parameter. -/
noncomputable def calculateJacobian (residualFn : List ℝ → Except String (List ℝ))
    (params : List ℝ) (step : ℝ) : Except String (List (List ℝ)) :=
  match residualFn params with
  | .error e => .error e
  | .ok baseResiduals =>
    match jacobianColumns residualFn params step baseResiduals.length
        (List.range params.length) with
    | .error e => .error e
    | .ok cols =>
      .ok ((List.range baseResiduals.length).map (fun i =>
        cols.map (fun col => col.getD i 0)))

/-- `matrixTransposeProduct` from uncertainty.js: `A^T * A`. -/
noncomputable def matrixTransposeProduct (A : List (List ℝ)) : List (List ℝ) :=
  let nCols := (A.headD []).length
  (List.range nCols).map (fun i => (List.range nCols).map (fun j =>
    (A.map (fun row => row.getD i 0 * row.getD j 0)).sum))

/-- Inner loop of the Cholesky decomposition in `invertSymmetricMatrix`:
build the entries `j = 0..i` of row `i` of `L`, given the previous rows in
`L` (only the lower triangle is stored; row `i` has `i+1` entries).  A
non-positive diagonal pivot is floored to `1e-10` before the square root,
exactly as in the JS code. -/
noncomputable def cholRowBuildGo (A L : List (List ℝ)) (i : ℕ) :
    List ℕ → List ℝ → List ℝ
  | [], rowi => rowi
  | j :: js, rowi =>
    let Lj := if j = i then rowi else L.getD j []
    let s := (A.getD i []).getD j 0 -
      ((List.range j).map (fun k => rowi.getD k 0 * Lj.getD k 0)).sum
    let entry := if j = i then Real.sqrt (if s ≤ 0 then 1e-10 else s)
      else s / (Lj.getD j 0)
    cholRowBuildGo A L i js (rowi ++ [entry])

/-- Outer loop of the Cholesky decomposition: rows `i = 0..n-1` in order. -/
noncomputable def cholRowsGo (A : List (List ℝ)) :
    List ℕ → List (List ℝ) → List (List ℝ)
  | [], L => L
  | i :: is_, L => cholRowsGo A is_ (L ++ [cholRowBuildGo A L i (List.range (i+1)) []])

/-- Loop computing column `i` of `L⁻¹` in `invertSymmetricMatrix`
(entries `j = i..n-1`; `col` holds the entries computed so far). -/
noncomputable def linvColGo (L : List (List ℝ)) (i : ℕ) :
    List ℕ → List ℝ → List ℝ
  | [], col => col
  | j :: js, col =>
    let entry := if j = i then 1 / ((L.getD i []).getD i 0)
      else (((List.range (j - i)).map
          (fun t => -((L.getD j []).getD (i + t) 0 * col.getD t 0))).sum) /
        ((L.getD j []).getD j 0)
    linvColGo L i js (col ++ [entry])

/-- `invertSymmetricMatrix` from uncertainty.js: Cholesky decomposition with
the `1e-10` diagonal floor, inversion of `L`, and `A⁻¹ = (L⁻¹)ᵀ L⁻¹`
(summing over `k ≥ max i j`). -/
noncomputable def invertSymmetricMatrix (A : List (List ℝ)) : List (List ℝ) :=
  let n := A.length
  let L := cholRowsGo A (List.range n) []
  let linvCol := fun i => linvColGo L i ((List.range n).drop i) []
  let linvEntry := fun k i => if k < i then (0:ℝ) else (linvCol i).getD (k - i) 0
  (List.range n).map (fun i => (List.range n).map (fun j =>
    (((List.range n).drop (max i j)).map
      (fun k => linvEntry k i * linvEntry k j)).sum))

/-- `calculateParameterUncertainties` from uncertainty.js: standard errors
`sqrt((JᵀJ)⁻¹[i][i] · reducedChiSquared)` clamped to `0` when non-positive;
any error thrown inside the chain (caught by the JS `try`/`catch`) degrades
to the all-zero vector. -/
noncomputable def calculateParameterUncertainties (params : List ℝ)
    (residualFn : List ℝ → Except String (List ℝ)) (residualVariance : ℝ)
    (step : ℝ) : List ℝ :=
  match calculateJacobian residualFn params step with
  | .error _ => params.map (fun _ => 0)
  | .ok jacobian =>
    let JTJ := matrixTransposeProduct jacobian
    let covarianceUnscaled := invertSymmetricMatrix JTJ
    params.mapIdx (fun i _ =>
      let variance := ((covarianceUnscaled.getD i []).getD i 0) * residualVariance
      if variance > 0 then Real.sqrt variance else 0)

/-! ## validation.js -/

/-- Result record of `checkDegreesOfFreedom` in validation.js. -/
structure DofCheckResult where
  valid : Bool
  warning : Bool
  nObservations : ℕ
  nParameters : ℕ
  degreesOfFreedom : ℤ
  message : String

/-- `checkDegreesOfFreedom` from validation.js. -/
def checkDegreesOfFreedom (nObservations nParameters : ℕ) : DofCheckResult :=
  let dof : ℤ := (nObservations : ℤ) - (nParameters : ℤ)
  { valid := decide (dof > 0)
    warning := decide (dof = 1)
    nObservations := nObservations
    nParameters := nParameters
    degreesOfFreedom := dof
    message :=
      if dof ≤ 0 then
        s!"Underdetermined system: need at least {nParameters + 1} observations for {nParameters} parameters"
      else if dof = 1 then
        "Marginal degrees of freedom (DoF = 1). Consider adding more data or fixing parameters."
      else s!"Degrees of freedom: {dof}" }

/-! ## fitting.js

`fitParameters` receives its options already merged with `DEFAULT_OPTIONS`
(the JS `{ ...DEFAULT_OPTIONS, ...options }` spread), so `FitOptions` is a
total record; in particular `initialPH` is always a number, which collapses
the JS chain `opts.initialPH ?? initialConditions.pH ?? 7.0` to
`opts.initialPH`.  The external `ml-levenberg-marquardt` solver is abstracted
as an `Optimizer` argument (it receives the model function, the observed
data, the initial values, the box bounds, and the iteration options, and
either returns fitted parameter values with an iteration count or throws). -/

/-- Fitting options (`DEFAULT_OPTIONS` shape in fitting.js). -/
structure FitOptions where
  refineTemperature : Bool
  refineIonicStrength : Bool
  refineReferences : List (String × Bool)
  maxIterations : ℕ
  tolerance : ℝ
  initialPH : ℝ

/-- `DEFAULT_OPTIONS` from fitting.js. -/
noncomputable def DEFAULT_OPTIONS : FitOptions :=
  { refineTemperature := false
    refineIonicStrength := false
    refineReferences := []
    maxIterations := 100
    tolerance := 1e-8
    initialPH := 7.0 }

/-- A condition vector (pH, temperature, ionic strength, per-nucleus
reference offsets). -/
structure Conditions where
  pH : ℝ
  temperature : ℝ
  ionicStrength : ℝ
  referenceOffsets : List (String × ℝ)

/-- Caller-supplied initial conditions (`initialConditions` in fitting.js);
its `pH` key may be absent. -/
structure InitialConditions where
  pH : Option ℝ
  temperature : ℝ
  ionicStrength : ℝ
  referenceOffsets : List (String × ℝ)

/-- One entry of the name-to-index `parameterMap` of `buildParameterVector`. -/
structure ParamEntry where
  index : ℕ
  name : String

/-- The `parameterMap` object of `buildParameterVector`: pH always at index 0,
optional temperature and ionic-strength entries, then one `ref_${nucleus}`
entry per refined nucleus. -/
structure ParameterMap where
  pH : ParamEntry
  temperature : Option ParamEntry
  ionicStrength : Option ParamEntry
  refs : List (String × ParamEntry)

/-- The reference-offset loop at the end of `buildParameterVector`: walk the
`refineReferences` entries in order, appending one parameter and one map
entry per nucleus flagged `true`. -/
noncomputable def buildRefsLoop (conditions : Conditions) :
    List (String × Bool) → List ℝ → ℕ → List ℝ × List (String × ParamEntry)
  | [], params, _ => (params, [])
  | (nucleus, refine) :: rest, params, index =>
    if refine then
      let params2 := params ++ [(conditions.referenceOffsets.lookup nucleus).getD 0]
      let result := buildRefsLoop conditions rest params2 (index + 1)
      (result.1, (nucleus, { index := index, name := nucleus ++ " reference offset (ppm)" })
        :: result.2)
    else buildRefsLoop conditions rest params index

/-- `buildParameterVector` from fitting.js. -/
noncomputable def buildParameterVector (conditions : Conditions) (options : FitOptions) :
    List ℝ × ParameterMap :=
  let params1 : List ℝ := [conditions.pH]
  let index1 : ℕ := 1
  let tEntry : Option ParamEntry :=
    if options.refineTemperature then some { index := index1, name := "Temperature (K)" }
    else none
  let params2 :=
    if options.refineTemperature then params1 ++ [conditions.temperature] else params1
  let index2 := if options.refineTemperature then index1 + 1 else index1
  let iEntry : Option ParamEntry :=
    if options.refineIonicStrength then
      some { index := index2, name := "Ionic strength (M)" }
    else none
  let params3 :=
    if options.refineIonicStrength then params2 ++ [conditions.ionicStrength] else params2
  let index3 := if options.refineIonicStrength then index2 + 1 else index2
  let refsResult := buildRefsLoop conditions options.refineReferences params3 index3
  (refsResult.1,
    { pH := { index := 0, name := "pH" }
      temperature := tEntry
      ionicStrength := iEntry
      refs := refsResult.2 })

/-- `extractConditions` from fitting.js: read back a condition vector from a
parameter vector, fixed components coming from `baseConditions`.  The JS
object-property writes of the `ref_` loop are modelled by prepending to the
association list (lookup takes the first, i.e. overriding, entry). -/
noncomputable def extractConditions (params : List ℝ) (parameterMap : ParameterMap)
    (baseConditions : Conditions) : Conditions :=
  { pH := params.getD parameterMap.pH.index 0
    temperature :=
      match parameterMap.temperature with
      | some m => params.getD m.index 0
      | none => baseConditions.temperature
    ionicStrength :=
      match parameterMap.ionicStrength with
      | some m => params.getD m.index 0
      | none => baseConditions.ionicStrength
    referenceOffsets :=
      parameterMap.refs.foldl
        (fun acc entry => (entry.1, params.getD entry.2.index 0) :: acc)
        baseConditions.referenceOffsets }

/-- The per-peak loop of `createResidualFunction`: residual
`observed - (predicted + referenceOffset)`; a missing buffer or resonance
throws (JS `throw new Error(...)`, or a `TypeError` on the
`buffer.sample_id` access when the buffer is missing), modelled as
`Except.error`. -/
noncomputable def residualsLoop (buffersMap : List (String × Buffer))
    (samplesMap : List (String × Sample)) (conditions : Conditions) :
    List Peak → Except String (List ℝ)
  | [] => .ok []
  | peak :: rest =>
    match buffersMap.lookup peak.buffer_id with
    | none => .error ("Buffer not found: " ++ peak.buffer_id)
    | some buffer =>
      let sample := samplesMap.lookup buffer.sample_id
      let resonances := (buffer.chemical_shifts.lookup peak.nucleus).getD []
      match resonances.find? (fun r => r.resonance_id == peak.resonance_id) with
      | none => .error ("Resonance not found: " ++ peak.resonance_id ++ " in " ++ peak.buffer_id)
      | some resonance =>
        let refTemp := (sample.map (fun s => s.reference_temperature_K)).getD 298.15
        let refIonic := (sample.map (fun s => s.reference_ionic_strength_M)).getD 0
        let pKaValues := getBufferPKaValues buffer conditions.temperature
          conditions.ionicStrength refTemp
        let predictedShift := predictShift resonance pKaValues conditions.pH
          conditions.temperature conditions.ionicStrength refTemp refIonic
        let refOffset := (conditions.referenceOffsets.lookup peak.nucleus).getD 0
        match residualsLoop buffersMap samplesMap conditions rest with
        | .error e => .error e
        | .ok rs => .ok ((peak.observed_shift - (predictedShift + refOffset)) :: rs)

/-- `createResidualFunction` from fitting.js. -/
noncomputable def createResidualFunction (assignedPeaks : List Peak)
    (buffersMap : List (String × Buffer)) (samplesMap : List (String × Sample))
    (parameterMap : ParameterMap) (baseConditions : Conditions) :
    List ℝ → Except String (List ℝ) :=
  fun params =>
    residualsLoop buffersMap samplesMap
      (extractConditions params parameterMap baseConditions) assignedPeaks

/-- The per-peak loop of `createModelFunction`.  The JS version performs the
same lookups without `throw` guards (a missing id would crash inside the
optimizer); those paths, unreachable for peaks produced by `assignPeaks`
over the same buffers, are modelled with empty defaults. -/
noncomputable def predictedLoop (buffersMap : List (String × Buffer))
    (samplesMap : List (String × Sample)) (conditions : Conditions) :
    List Peak → List ℝ
  | [] => []
  | peak :: rest =>
    let buffer := (buffersMap.lookup peak.buffer_id).getD ⟨"", "", "", [], []⟩
    let sample := samplesMap.lookup buffer.sample_id
    let resonances := (buffer.chemical_shifts.lookup peak.nucleus).getD []
    let resonance :=
      (resonances.find? (fun r => r.resonance_id == peak.resonance_id)).getD ⟨"", "", []⟩
    let refTemp := (sample.map (fun s => s.reference_temperature_K)).getD 298.15
    let refIonic := (sample.map (fun s => s.reference_ionic_strength_M)).getD 0
    let pKaValues := getBufferPKaValues buffer conditions.temperature
      conditions.ionicStrength refTemp
    let predictedShift := predictShift resonance pKaValues conditions.pH
      conditions.temperature conditions.ionicStrength refTemp refIonic
    let refOffset := (conditions.referenceOffsets.lookup peak.nucleus).getD 0
    (predictedShift + refOffset) :: predictedLoop buffersMap samplesMap conditions rest

/-- `createModelFunction` from fitting.js. -/
noncomputable def createModelFunction (assignedPeaks : List Peak)
    (buffersMap : List (String × Buffer)) (samplesMap : List (String × Sample))
    (parameterMap : ParameterMap) (baseConditions : Conditions) :
    List ℝ → List ℝ :=
  fun params =>
    predictedLoop buffersMap samplesMap
      (extractConditions params parameterMap baseConditions) assignedPeaks

/-- Abstract interface of the external bounded Levenberg-Marquardt solver:
model function, observed data, initial values, lower bounds, upper bounds,
maximum iterations, error tolerance; returns fitted parameter values and the
iteration count, or throws. -/
def Optimizer : Type :=
  (List ℝ → List ℝ) → List ℝ → List ℝ → List ℝ → List ℝ → ℕ → ℝ →
    Except String (List ℝ × ℕ)

/-- Does `i` equal the index of an optional parameter-map entry
(JS `parameterMap.temperature && i === parameterMap.temperature.index`)? -/
def isEntryIndex (entry : Option ParamEntry) (i : ℕ) : Bool :=
  match entry with
  | some m => i == m.index
  | none => false

/-- A fitted parameter value with its standard error. -/
structure ParamResult where
  value : ℝ
  uncertainty : ℝ
  name : String

/-- The `statistics` record of a successful fit. -/
structure FitStatistics where
  nObservations : ℕ
  nParameters : ℕ
  degreesOfFreedom : ℤ
  sumSquares : ℝ
  rmsd : ℝ
  chiSquared : ℝ
  reducedChiSquared : ℝ
  iterations : ℕ

/-- The `convergence` record of a successful fit. -/
structure ConvergenceInfo where
  converged : Bool
  iterations : ℕ

/-- The result object of `fitParameters`; the four JS return shapes become
four constructors (`success` is `true` exactly on `fitted`). -/
inductive FitResult where
  | noPeaks (error : String) (assignments : List (String × List Assignment))
  | underdetermined (error : String) (assignments : List (String × List Assignment))
      (nObservations nParameters : ℕ) (degreesOfFreedom : ℤ)
  | fitFailed (error : String) (assignments : List (String × List Assignment))
  | fitted (parameters : List (String × ParamResult)) (conditions : Conditions)
      (assignments : List (String × List Assignment)) (residuals : List ℝ)
      (statistics : FitStatistics) (convergence : ConvergenceInfo)

/-- The `success` field of a `fitParameters` result. -/
def FitResult.success : FitResult → Bool
  | .fitted _ _ _ _ _ _ => true
  | _ => false

/-- The `error` field of a `fitParameters` result (absent on success). -/
def FitResult.errorMsg : FitResult → Option String
  | .noPeaks e _ => some e
  | .underdetermined e _ _ _ _ => some e
  | .fitFailed e _ => some e
  | .fitted _ _ _ _ _ _ => none

/-- The reported observation count (top-level on the underdetermined shape,
inside `statistics` on success). -/
def FitResult.nObservationsOut : FitResult → Option ℕ
  | .underdetermined _ _ n _ _ => some n
  | .fitted _ _ _ _ stats _ => some stats.nObservations
  | _ => none

/-- The reported parameter count. -/
def FitResult.nParametersOut : FitResult → Option ℕ
  | .underdetermined _ _ _ n _ => some n
  | .fitted _ _ _ _ stats _ => some stats.nParameters
  | _ => none

/-- The reported degrees of freedom. -/
def FitResult.degreesOfFreedomOut : FitResult → Option ℤ
  | .underdetermined _ _ _ _ d => some d
  | .fitted _ _ _ _ stats _ => some stats.degreesOfFreedom
  | _ => none

/-- The `parameterResults` object built after a successful optimization, in
JS object insertion order (`pH`, `temperature?`, `ionicStrength?`, `ref_*`). -/
noncomputable def parameterResultsOf (parameterMap : ParameterMap)
    (fittedParams uncertainties : List ℝ) : List (String × ParamResult) :=
  [("pH", { value := fittedParams.getD parameterMap.pH.index 0
            uncertainty := uncertainties.getD parameterMap.pH.index 0
            name := parameterMap.pH.name : ParamResult })]
  ++ (match parameterMap.temperature with
      | some m => [("temperature", { value := fittedParams.getD m.index 0
                                     uncertainty := uncertainties.getD m.index 0
                                     name := m.name : ParamResult })]
      | none => [])
  ++ (match parameterMap.ionicStrength with
      | some m => [("ionicStrength", { value := fittedParams.getD m.index 0
                                       uncertainty := uncertainties.getD m.index 0
                                       name := m.name : ParamResult })]
      | none => [])
  ++ parameterMap.refs.map (fun entry =>
      ("ref_" ++ entry.1, { value := fittedParams.getD entry.2.index 0
                            uncertainty := uncertainties.getD entry.2.index 0
                            name := entry.2.name : ParamResult }))

/-- `fitParameters` from fitting.js. -/
noncomputable def fitParameters (optimizer : Optimizer)
    (observedShifts : List (String × List ℝ)) (buffers : List Buffer)
    (samplesMap : List (String × Sample)) (initialConditions : InitialConditions)
    (opts : FitOptions) : FitResult :=
  let assignments := assignPeaks observedShifts buffers samplesMap opts.initialPH
    initialConditions.temperature initialConditions.ionicStrength []
  let assignedPeaks := getAssignedPeaksForFitting assignments
  if assignedPeaks.length = 0 then
    .noPeaks "No peaks could be assigned to buffer resonances" assignments
  else
    let buffersMap := buffers.map (fun b => (b.buffer_id, b))
    let baseConditions : Conditions :=
      { temperature := initialConditions.temperature
        ionicStrength := initialConditions.ionicStrength
        referenceOffsets := initialConditions.referenceOffsets
        pH := opts.initialPH }
    let built := buildParameterVector baseConditions opts
    let initialParams := built.1
    let parameterMap := built.2
    let nParams := initialParams.length
    let nObs := assignedPeaks.length
    let dof : ℤ := (nObs : ℤ) - (nParams : ℤ)
    if dof < 0 then
      .underdetermined
        (s!"Underdetermined system: {nObs} observations, {nParams} parameters (DoF = {dof})")
        assignments nObs nParams dof
    else
      let modelFn := createModelFunction assignedPeaks buffersMap samplesMap
        parameterMap baseConditions
      let yData := assignedPeaks.map (fun p => p.observed_shift)
      let minValues := initialParams.mapIdx (fun i _ =>
        if i = parameterMap.pH.index then (0:ℝ)
        else if isEntryIndex parameterMap.temperature i then 273
        else if isEntryIndex parameterMap.ionicStrength i then 0
        else -10)
      let maxValues := initialParams.mapIdx (fun i _ =>
        if i = parameterMap.pH.index then (14:ℝ)
        else if isEntryIndex parameterMap.temperature i then 373
        else if isEntryIndex parameterMap.ionicStrength i then 1
        else 10)
      match optimizer modelFn yData initialParams minValues maxValues
        opts.maxIterations opts.tolerance with
      | .error e => .fitFailed ("Fitting failed: " ++ e) assignments
      | .ok optResult =>
        let fittedParams := optResult.1
        let iterations := optResult.2
        let fittedConditions := extractConditions fittedParams parameterMap baseConditions
        let finalAssignments := assignPeaks observedShifts buffers samplesMap
          fittedConditions.pH fittedConditions.temperature
          fittedConditions.ionicStrength []
        let residualFn := createResidualFunction assignedPeaks buffersMap samplesMap
          parameterMap baseConditions
        match residualFn fittedParams with
        | .error e => .fitFailed ("Fitting failed: " ++ e) assignments
        | .ok residuals =>
          let sumSquares := (residuals.map (fun r => r * r)).sum
          let rmsd := Real.sqrt (sumSquares / (residuals.length : ℝ))
          let chiSquared := sumSquares
          let reducedChiSquared := if dof > 0 then chiSquared / (dof : ℝ) else chiSquared
          let uncertainties := calculateParameterUncertainties fittedParams residualFn
            reducedChiSquared (1e-6)
          .fitted (parameterResultsOf parameterMap fittedParams uncertainties)
            fittedConditions finalAssignments residuals
            { nObservations := nObs
              nParameters := nParams
              degreesOfFreedom := dof
              sumSquares := sumSquares
              rmsd := rmsd
              chiSquared := chiSquared
              reducedChiSquared := reducedChiSquared
              iterations := iterations }
            { converged := iterations < opts.maxIterations
              iterations := iterations }

/-! ## Supporting lemmas -/

/-- Dividing every element of a list by `t` divides the sum by `t`. -/
lemma sum_map_div (l : List ℝ) (t : ℝ) :
    (l.map (fun r => r / t)).sum = l.sum / t := by
  induction l with
  | nil => simp
  | cons a l ih => simp [ih, add_div]

/-- Every unnormalized relative population in `ionisationFractions` is
positive (a product of powers of 10). -/
lemma relatives_pos (pH : ℝ) (l : List ℝ) :
    ∀ r ∈ (List.range (l.length + 1)).map
      (fun i => ((l.drop i).map (fun pKa => (10:ℝ) ^ (pKa - pH))).prod), 0 < r := by
  intro r hr
  rcases List.mem_map.mp hr with ⟨i, _, rfl⟩
  apply List.prod_pos
  intro a ha
  rcases List.mem_map.mp ha with ⟨x, _, rfl⟩
  exact Real.rpow_pos_of_pos (by norm_num) _

/-- Unfolding of `ionisationFractions` for a nonempty pKa list. -/
lemma ionisationFractions_eq_of_ne_nil (pH : ℝ) (l : List ℝ) (h : l ≠ []) :
    ionisationFractions pH l =
      ((List.range (l.length + 1)).map
        (fun i => ((l.drop i).map (fun pKa => (10:ℝ) ^ (pKa - pH))).prod)).map
        (fun r => r / ((List.range (l.length + 1)).map
          (fun i => ((l.drop i).map (fun pKa => (10:ℝ) ^ (pKa - pH))).prod)).sum) := by
  unfold ionisationFractions
  rw [if_neg]
  simpa [List.length_eq_zero] using h

/-! ## Claim C1 -/

/-- Claim C1: for every pKa list of length 0 to 6 (sorted ascending) and
every pH in [-50, 50], `ionisationFractions` returns one entry per
ionisation state (length = number of pKa values + 1), every entry is
non-negative, and the entries sum to exactly 1 over the reals; in
particular, for an empty pKa list the result is `[1]`. -/
theorem ionisationFractions_sum_one (pH : ℝ) (pKaValues : List ℝ)
    (hlen : pKaValues.length ≤ 6)
    (hsorted : pKaValues.Sorted (fun a b => a ≤ b))
    (hlo : -50 ≤ pH) (hhi : pH ≤ 50) :
    (ionisationFractions pH pKaValues).length = pKaValues.length + 1 ∧
    (∀ f ∈ ionisationFractions pH pKaValues, 0 ≤ f) ∧
    (ionisationFractions pH pKaValues).sum = 1 ∧
    ionisationFractions pH ([] : List ℝ) = [1] := by
  have hnil : ionisationFractions pH ([] : List ℝ) = [1] := by
    simp [ionisationFractions]
  rcases eq_or_ne pKaValues [] with rfl | hne
  · refine ⟨by simp [hnil], ?_, by simp [hnil], hnil⟩
    intro f hf
    rw [hnil] at hf
    simp at hf
    simp [hf]
  · rw [ionisationFractions_eq_of_ne_nil pH pKaValues hne]
    set relatives := (List.range (pKaValues.length + 1)).map
      (fun i => ((pKaValues.drop i).map (fun pKa => (10:ℝ) ^ (pKa - pH))).prod)
      with hrel
    have hpos : ∀ r ∈ relatives, 0 < r := relatives_pos pH pKaValues
    have hrelne : relatives ≠ [] := by
      rw [hrel]
      simp [List.range_eq_nil]
    have htot : 0 < relatives.sum := List.sum_pos relatives hpos hrelne
    refine ⟨?_, ?_, ?_, hnil⟩
    · simp [hrel]
    · intro f hf
      rcases List.mem_map.mp hf with ⟨r, hr, rfl⟩
      exact le_of_lt (div_pos (hpos r hr) htot)
    · rw [sum_map_div]
      exact div_self (ne_of_gt htot)

/-- Witness for C1 at pH 7 with the sorted pKa list `[3, 5]`. -/
theorem ionisationFractions_sum_one_witness :
    ([(3:ℝ), 5].length ≤ 6 ∧ ([(3:ℝ), 5]).Sorted (fun a b => a ≤ b) ∧
      (-50:ℝ) ≤ 7 ∧ (7:ℝ) ≤ 50) ∧
    ((ionisationFractions 7 [3, 5]).length = 3 ∧
      (∀ f ∈ ionisationFractions 7 [3, 5], 0 ≤ f) ∧
      (ionisationFractions 7 [3, 5]).sum = 1) := by
  have h1 : ([(3:ℝ), 5].length ≤ 6) := by norm_num
  have h2 : ([(3:ℝ), 5]).Sorted (fun a b => a ≤ b) := by
    simp [List.sorted_cons]
    norm_num
  have h3 : (-50:ℝ) ≤ 7 := by norm_num
  have h4 : (7:ℝ) ≤ 50 := by norm_num
  have h := ionisationFractions_sum_one 7 [3, 5] h1 h2 h3 h4
  exact ⟨⟨h1, h2, h3, h4⟩, ⟨h.1, h.2.1, h.2.2.1⟩⟩

/-! ## Claim C7 -/

/-- Claim C7: for every pKa parameter record (any enthalpy, heat-capacity,
charge and ionic-strength-model fields), `calculatePKa` evaluated at a
temperature equal to the (positive) reference temperature and at ionic
strength 0 returns exactly the record's unmodified reference pKa. -/
theorem calculatePKa_at_reference (p : PKaParams) (Tref : ℝ) (hT : 0 < Tref) :
    calculatePKa p Tref 0 Tref = getValue p.pKa := by
  have htemp : calculatePKaTemperature p Tref Tref = getValue p.pKa := by
    simp only [calculatePKaTemperature]
    have e1 : (1:ℝ)/Tref - 1/Tref = 0 := by ring
    have e2 : Tref/Tref - 1 + Real.log (Tref/Tref) = 0 := by
      rw [div_self (ne_of_gt hT), Real.log_one]
      ring
    rw [e1, e2]
    simp
  unfold calculatePKa
  cases hmodel : p.ionic_strength_model.getD .davies with
  | davies => simp [hmodel, htemp, calculatePKaIonicStrengthDavies]
  | extended_debye_huckel => simp [hmodel, htemp, calculatePKaIonicStrengthExtendedDH]
  | empirical => simp [hmodel, htemp, calculatePKaIonicStrengthEmpirical]
  | nomodel => simp [hmodel, htemp]

/-- A concrete pKa parameter record with every optional field populated. -/
def c7Params : PKaParams :=
  { pKa := .num 7.4
    dH_kJ_mol := some (.num 10)
    dCp_J_mol_K := some (.pair 5 1)
    protonated_charge := some 1
    ion_size_angstrom := some 4
    ionic_strength_coefficient_per_M := some (.num 0.2)
    ionic_strength_model := some .davies }

/-- Witness for C7 at the default reference temperature 298.15 K. -/
theorem calculatePKa_at_reference_witness :
    0 < (298.15:ℝ) ∧ calculatePKa c7Params 298.15 0 298.15 = 7.4 := by
  refine ⟨by norm_num, ?_⟩
  have h := calculatePKa_at_reference c7Params 298.15 (by norm_num)
  simpa [c7Params, getValue] using h

/-! ## Claim C10 -/

/-- Claim C10: for every nucleus label that is not one of 1H, 13C, 15N, 19F,
31P and that has no caller-supplied tolerance override, the assignment
tolerance used by `assignPeaks` (the expression
`tolerances[nucleus] ?? DEFAULT_TOLERANCES[nucleus] ?? 1.0`, embedded as
`toleranceFor`) is the fallback 1.0 ppm. -/
theorem toleranceFor_unknown_nucleus (tolerances : List (String × ℝ)) (nucleus : String)
    (hOverride : tolerances.lookup nucleus = none)
    (hKnown : nucleus ∉ ["1H", "13C", "15N", "19F", "31P"]) :
    toleranceFor tolerances nucleus = 1.0 := by
  have hk : nucleus ≠ "1H" ∧ nucleus ≠ "13C" ∧ nucleus ≠ "15N" ∧ nucleus ≠ "19F" ∧
      nucleus ≠ "31P" := by
    simp only [List.mem_cons, List.not_mem_nil, or_false, not_or] at hKnown
    exact hKnown
  have hdef : DEFAULT_TOLERANCES.lookup nucleus = none := by
    have b1 : (nucleus == "1H") = false := beq_eq_false_iff_ne.mpr hk.1
    have b2 : (nucleus == "13C") = false := beq_eq_false_iff_ne.mpr hk.2.1
    have b3 : (nucleus == "15N") = false := beq_eq_false_iff_ne.mpr hk.2.2.1
    have b4 : (nucleus == "19F") = false := beq_eq_false_iff_ne.mpr hk.2.2.2.1
    have b5 : (nucleus == "31P") = false := beq_eq_false_iff_ne.mpr hk.2.2.2.2
    simp [DEFAULT_TOLERANCES, List.lookup, b1, b2, b3, b4, b5]
  unfold toleranceFor
  rw [hOverride, hdef]

/-- Witness for C10 with the unlisted nucleus label 2H and no overrides. -/
theorem toleranceFor_unknown_nucleus_witness :
    ([] : List (String × ℝ)).lookup "2H" = none ∧
      "2H" ∉ ["1H", "13C", "15N", "19F", "31P"] ∧
      toleranceFor [] "2H" = 1.0 :=
  ⟨rfl, by decide, toleranceFor_unknown_nucleus [] "2H" rfl (by decide)⟩

/-! ## Claim C5 -/

/-- Every element of `scoreAndSort` is a prediction decorated with its
distance to the observed shift. -/
lemma scoreAndSort_mem (observedShift : ℝ) (predictions : List Prediction)
    (a : ScoredPrediction) (ha : a ∈ scoreAndSort observedShift predictions) :
    ∃ p ∈ predictions,
      a = { pred := p
            distance := observedShift - p.predicted_shift
            absDistance := |observedShift - p.predicted_shift| : ScoredPrediction } := by
  simp only [scoreAndSort] at ha
  rcases List.mem_map.mp ((List.perm_insertionSort _ _).mem_iff.mp ha) with ⟨p, hp, rfl⟩
  exact ⟨p, hp, rfl⟩

/-- When every candidate is farther than the tolerance, `assignSingleShift`
leaves the peak unassigned with confidence `none`. -/
lemma assignSingleShift_far (observedShift tolerance : ℝ) (predictions : List Prediction)
    (hfar : ∀ p ∈ predictions, tolerance < |observedShift - p.predicted_shift|) :
    (assignSingleShift observedShift predictions tolerance).assigned = false ∧
    (assignSingleShift observedShift predictions tolerance).confidence = "none" := by
  cases predictions with
  | nil => simp [assignSingleShift, noPredictionsAssignment]
  | cons q qs =>
    simp only [assignSingleShift]
    cases hs : scoreAndSort observedShift (q :: qs) with
    | nil => simp [noPredictionsAssignment]
    | cons best rest =>
      have hbm : best ∈ scoreAndSort observedShift (q :: qs) := by
        rw [hs]
        exact List.mem_cons_self _ _
      obtain ⟨p, hpmem, rfl⟩ := scoreAndSort_mem observedShift (q :: qs) best hbm
      have hconf : calculateConfidence (|observedShift - p.predicted_shift|) tolerance
          (rest.head?.map (fun nb => nb.absDistance)) = "none" := by
        simp only [calculateConfidence]
        rw [if_pos]
        rw [abs_abs]
        exact hfar p hpmem
      simp [hconf]

/-- Claim C5: `calculateConfidence` returns `none` iff the absolute distance
exceeds the tolerance; otherwise `high` iff the absolute distance is below
0.3 of the tolerance and the next-best distance (infinite when absent)
exceeds 0.6 of the tolerance; otherwise `medium` iff the absolute distance is
below 0.6 of the tolerance; otherwise `low`.  In particular
`assignSingleShift` reports confidence `none` and leaves the peak unassigned
whenever every candidate's distance exceeds the tolerance, regardless of how
many candidates exist. -/
theorem calculateConfidence_spec (d t : ℝ) (d2 : Option ℝ)
    (observedShift tolerance : ℝ) (predictions : List Prediction) :
    (calculateConfidence d t d2 = "none" ↔ |d| > t) ∧
    (¬ |d| > t →
      (calculateConfidence d t d2 = "high" ↔ (|d| < t * 0.3 ∧ gtOpt d2 (t * 0.6)))) ∧
    (¬ |d| > t → ¬(|d| < t * 0.3 ∧ gtOpt d2 (t * 0.6)) →
      (calculateConfidence d t d2 = "medium" ↔ |d| < t * 0.6)) ∧
    (¬ |d| > t → ¬(|d| < t * 0.3 ∧ gtOpt d2 (t * 0.6)) → ¬ |d| < t * 0.6 →
      calculateConfidence d t d2 = "low") ∧
    ((∀ p ∈ predictions, tolerance < |observedShift - p.predicted_shift|) →
      (assignSingleShift observedShift predictions tolerance).assigned = false ∧
      (assignSingleShift observedShift predictions tolerance).confidence = "none") := by
  refine ⟨?_, ?_, ?_, ?_, fun hfar => assignSingleShift_far _ _ _ hfar⟩
  · simp only [calculateConfidence]
    split_ifs with h1 h2 h3 <;> simp_all
  · intro h1
    simp only [calculateConfidence]
    split_ifs with h1' h2 h3 <;> simp_all
  · intro h1 h2
    simp only [calculateConfidence]
    split_ifs with h1' h2' h3 <;> simp_all
  · intro h1 h2 h3
    simp only [calculateConfidence]
    split_ifs with h1' h2' h3' <;> simp_all

/-- Witness for C5: a distance of 1 against tolerance 0.5 yields `none`, and
with a single too-far candidate the peak is unassigned. -/
theorem calculateConfidence_spec_witness :
    calculateConfidence 1 0.5 none = "none" ∧
    (assignSingleShift 3
      [{ buffer_id := "b1", buffer_name := "B1", resonance_id := "r1",
         description := "d", predicted_shift := 5 }] 0.5).assigned = false := by
  have h := calculateConfidence_spec 1 0.5 none 3 0.5
    [{ buffer_id := "b1", buffer_name := "B1", resonance_id := "r1",
       description := "d", predicted_shift := 5 }]
  constructor
  · exact h.1.mpr (by norm_num)
  · refine (h.2.2.2.2 ?_).1
    intro p hp
    simp at hp
    rw [hp]
    norm_num

/-! ## Claim C4 -/

/-- The used-set keys claimed by the assigned entries of one nucleus's
assignment list, in assignment order. -/
def newKeys (asgs : List Assignment) : List String :=
  asgs.filterMap (fun a => if a.assigned then some (assignmentKey a) else none)

/-- All used-set keys claimed in an `assignPeaks` result, across nuclei. -/
def newKeysAll (result : List (String × List Assignment)) : List String :=
  result.flatMap (fun entry => newKeys entry.2)

/-- All `(buffer_id, resonance_id)` pairs of assigned entries in an
`assignPeaks` result, across nuclei. -/
def assignedPairs (result : List (String × List Assignment)) :
    List (String × String) :=
  result.flatMap (fun entry => entry.2.filterMap (fun a =>
    if a.assigned then some (a.buffer_id.getD "", a.resonance_id.getD "") else none))

/-- The claimed keys are the encodings of the claimed pairs. -/
lemma assignedPairs_map_eq_newKeysAll (result : List (String × List Assignment)) :
    (assignedPairs result).map (fun pr => pr.1 ++ ":" ++ pr.2) = newKeysAll result := by
  unfold assignedPairs newKeysAll newKeys
  rw [List.map_flatMap]
  congr 1
  funext entry
  rw [List.map_filterMap]
  congr 1
  funext a
  by_cases ha : a.assigned <;> simp [ha, assignmentKey]

/-- An assigned result of `assignSingleShift` carries the identity of one of
the offered predictions. -/
lemma assignSingleShift_assigned_mem (observedShift tolerance : ℝ)
    (predictions : List Prediction)
    (h : (assignSingleShift observedShift predictions tolerance).assigned = true) :
    ∃ p ∈ predictions,
      (assignSingleShift observedShift predictions tolerance).buffer_id = some p.buffer_id ∧
      (assignSingleShift observedShift predictions tolerance).resonance_id =
        some p.resonance_id := by
  cases predictions with
  | nil => simp [assignSingleShift, noPredictionsAssignment] at h
  | cons q qs =>
    simp only [assignSingleShift] at h ⊢
    cases hs : scoreAndSort observedShift (q :: qs) with
    | nil =>
      rw [hs] at h
      simp [noPredictionsAssignment] at h
    | cons best rest =>
      rw [hs] at h
      by_cases hc : calculateConfidence best.absDistance tolerance
          (rest.head?.map (fun nb => nb.absDistance)) = "none"
      · simp [hc] at h
      · have hbm : best ∈ scoreAndSort observedShift (q :: qs) := by
          rw [hs]
          exact List.mem_cons_self _ _
        obtain ⟨p, hpmem, rfl⟩ := scoreAndSort_mem observedShift (q :: qs) best hbm
        exact ⟨p, hpmem, by simp [hc]⟩

/-- The key of an assignment produced from a filtered prediction list is a
fresh key of the nucleus's predictions. -/
lemma assignment_key_fresh (observedShift tolerance : ℝ)
    (nucleusPredictions : List Prediction) (used : List String)
    (h : (assignSingleShift observedShift
      (nucleusPredictions.filter (fun p => !(used.contains (predKey p))))
      tolerance).assigned = true) :
    assignmentKey (assignSingleShift observedShift
        (nucleusPredictions.filter (fun p => !(used.contains (predKey p)))) tolerance)
      ∈ nucleusPredictions.map predKey ∧
    assignmentKey (assignSingleShift observedShift
        (nucleusPredictions.filter (fun p => !(used.contains (predKey p)))) tolerance)
      ∉ used := by
  obtain ⟨p, hpmem, hbid, hrid⟩ := assignSingleShift_assigned_mem observedShift tolerance _ h
  have hkey : assignmentKey (assignSingleShift observedShift
      (nucleusPredictions.filter (fun p => !(used.contains (predKey p)))) tolerance)
      = predKey p := by
    unfold assignmentKey
    rw [hbid, hrid]
    rfl
  obtain ⟨hpin, hpfresh⟩ := List.mem_filter.mp hpmem
  rw [hkey]
  constructor
  · exact List.mem_map_of_mem predKey hpin
  · simpa using hpfresh

/-- Invariant of the inner `assignPeaks` loop: the keys claimed while
processing one nucleus are distinct, fresh with respect to the incoming used
set, drawn from the nucleus's predictions, and the outgoing used set is the
incoming one extended by exactly the claimed keys. -/
lemma assignShiftsLoop_invariant (nucleusPredictions : List Prediction) (tolerance : ℝ)
    (nucleus : String) :
    ∀ (shifts : List ℝ) (used : List String),
      (newKeys (assignShiftsLoop nucleusPredictions tolerance nucleus shifts used).1).Nodup ∧
      (∀ k ∈ newKeys (assignShiftsLoop nucleusPredictions tolerance nucleus shifts used).1,
        k ∉ used ∧ k ∈ nucleusPredictions.map predKey) ∧
      (∀ k, k ∈ (assignShiftsLoop nucleusPredictions tolerance nucleus shifts used).2 ↔
        k ∈ newKeys (assignShiftsLoop nucleusPredictions tolerance nucleus shifts used).1 ∨
          k ∈ used) := by
  intro shifts
  induction shifts with
  | nil =>
    intro used
    simp [assignShiftsLoop, newKeys]
  | cons s ss ih =>
    intro used
    simp only [assignShiftsLoop]
    set a := assignSingleShift s
      (nucleusPredictions.filter (fun p => !(used.contains (predKey p)))) tolerance
      with ha
    by_cases hass : a.assigned
    · have hfresh := assignment_key_fresh s tolerance nucleusPredictions used (ha ▸ hass)
      rw [← ha] at hfresh
      obtain ⟨ihnd, ihsub, ihiff⟩ := ih (assignmentKey a :: used)
      rw [if_pos hass]
      have hkeys : newKeys ({ a with nucleus := some nucleus } ::
          (assignShiftsLoop nucleusPredictions tolerance nucleus ss
            (assignmentKey a :: used)).1) =
          assignmentKey a :: newKeys (assignShiftsLoop nucleusPredictions tolerance nucleus ss
            (assignmentKey a :: used)).1 := by
        simp [newKeys, hass, assignmentKey]
      refine ⟨?_, ?_, ?_⟩
      · rw [hkeys]
        refine List.nodup_cons.mpr ⟨?_, ihnd⟩
        intro hmem
        exact (ihsub _ hmem).1 (List.mem_cons_self _ _)
      · intro k hk
        rw [hkeys] at hk
        rcases List.mem_cons.mp hk with rfl | hk2
        · exact ⟨hfresh.2, hfresh.1⟩
        · obtain ⟨hnotin, hinpred⟩ := ihsub _ hk2
          exact ⟨fun hku => hnotin (List.mem_cons_of_mem _ hku), hinpred⟩
      · intro k
        rw [hkeys]
        rw [ihiff k]
        simp [List.mem_cons]
        tauto
    · obtain ⟨ihnd, ihsub, ihiff⟩ := ih used
      rw [if_neg hass]
      have hkeys : newKeys ({ a with nucleus := some nucleus } ::
          (assignShiftsLoop nucleusPredictions tolerance nucleus ss used).1) =
          newKeys (assignShiftsLoop nucleusPredictions tolerance nucleus ss used).1 := by
        simp [newKeys, hass]
      refine ⟨?_, ?_, ?_⟩
      · rw [hkeys]
        exact ihnd
      · intro k hk
        rw [hkeys] at hk
        exact ihsub _ hk
      · intro k
        rw [hkeys]
        exact ihiff k

/-- Invariant of the outer `assignPeaks` loop: all keys claimed in a round
are distinct and fresh with respect to the incoming used set. -/
lemma assignPeaksGo_invariant (predictions : String → List Prediction)
    (tolerances : List (String × ℝ)) :
    ∀ (entries : List (String × List ℝ)) (used : List String),
      (newKeysAll (assignPeaksGo predictions tolerances entries used)).Nodup ∧
      (∀ k ∈ newKeysAll (assignPeaksGo predictions tolerances entries used), k ∉ used) := by
  intro entries
  induction entries with
  | nil =>
    intro used
    simp [assignPeaksGo, newKeysAll]
  | cons e rest ih =>
    intro used
    obtain ⟨nucleus, shifts⟩ := e
    simp only [assignPeaksGo]
    obtain ⟨hnd, hsub, hiff⟩ := assignShiftsLoop_invariant
      (predictions nucleus) (toleranceFor tolerances nucleus) nucleus
      (List.insertionSort (fun a b => a ≤ b) shifts) used
    set loopResult := assignShiftsLoop (predictions nucleus)
      (toleranceFor tolerances nucleus) nucleus
      (List.insertionSort (fun a b => a ≤ b) shifts) used
      with hloop
    obtain ⟨ihnd, ihsub⟩ := ih loopResult.2
    have hall : newKeysAll ((nucleus, loopResult.1) ::
        assignPeaksGo predictions tolerances rest loopResult.2) =
        newKeys loopResult.1 ++
          newKeysAll (assignPeaksGo predictions tolerances rest loopResult.2) := by
      simp [newKeysAll]
    rw [hall]
    constructor
    · rw [List.nodup_append]
      refine ⟨hnd, ihnd, ?_⟩
      intro k hk1 hk2
      exact (ihsub _ hk2) ((hiff k).mpr (Or.inl hk1))
    · intro k hk
      rcases List.mem_append.mp hk with hk1 | hk2
      · exact (hsub _ hk1).1
      · intro hku
        exact (ihsub _ hk2) ((hiff k).mpr (Or.inr hku))

/-- Claim C4: within a single `assignPeaks` call, the assigned
`(buffer_id, resonance_id)` pairs are pairwise distinct — globally across
all nuclei of the round, hence in particular for each nucleus no pair is
assigned to two different observed shifts of the same nucleus, for every
input of observations, buffers and conditions. -/
theorem assignPeaks_assignment_injective (observedShifts : List (String × List ℝ))
    (buffers : List Buffer) (samplesMap : List (String × Sample))
    (pH temperature ionicStrength : ℝ) (tolerances : List (String × ℝ)) :
    (assignedPairs (assignPeaks observedShifts buffers samplesMap pH temperature
      ionicStrength tolerances)).Nodup := by
  apply List.Nodup.of_map (fun pr : String × String => pr.1 ++ ":" ++ pr.2)
  rw [assignedPairs_map_eq_newKeysAll]
  exact (assignPeaksGo_invariant
    (generatePredictions buffers samplesMap pH temperature ionicStrength)
    tolerances observedShifts []).1

/-! ## Claim C6 -/

/-- Extending the used set with keys foreign to the nucleus's predictions
changes neither the assignments of the inner loop nor the keys it claims. -/
lemma assignShiftsLoop_used_append (preds : List Prediction) (tol : ℝ) (nuc : String) :
    ∀ (shifts : List ℝ) (u v : List String),
      (∀ k ∈ v, k ∉ preds.map predKey) →
      (assignShiftsLoop preds tol nuc shifts (u ++ v)).1 =
        (assignShiftsLoop preds tol nuc shifts u).1 ∧
      (assignShiftsLoop preds tol nuc shifts (u ++ v)).2 =
        (assignShiftsLoop preds tol nuc shifts u).2 ++ v := by
  intro shifts
  induction shifts with
  | nil =>
    intro u v hv
    simp [assignShiftsLoop]
  | cons s ss ih =>
    intro u v hv
    simp only [assignShiftsLoop]
    have hfilter : preds.filter (fun p => !((u ++ v).contains (predKey p))) =
        preds.filter (fun p => !(u.contains (predKey p))) := by
      apply List.filter_congr
      intro p hp
      have hpv : predKey p ∉ v := by
        intro hmem
        exact hv _ hmem (List.mem_map_of_mem predKey hp)
      simp [hpv]
    rw [hfilter]
    set a := assignSingleShift s (preds.filter (fun p => !(u.contains (predKey p)))) tol
      with ha
    by_cases hass : a.assigned
    · rw [if_pos hass, if_pos hass]
      have hstep := ih (assignmentKey a :: u) v hv
      have hcons : assignmentKey a :: (u ++ v) = (assignmentKey a :: u) ++ v := rfl
      rw [hcons, hstep.1, hstep.2]
      exact ⟨rfl, rfl⟩
    · rw [if_neg hass, if_neg hass]
      have hstep := ih u v hv
      rw [hstep.1, hstep.2]
      exact ⟨rfl, rfl⟩

/-- Extending the used set entering the outer `assignPeaks` loop with keys
foreign to every remaining nucleus's predictions does not change the result. -/
lemma assignPeaksGo_used_append (predictions : String → List Prediction)
    (tolerances : List (String × ℝ)) :
    ∀ (entries : List (String × List ℝ)) (u v : List String),
      (∀ k ∈ v, ∀ e ∈ entries, k ∉ (predictions e.1).map predKey) →
      assignPeaksGo predictions tolerances entries (u ++ v) =
        assignPeaksGo predictions tolerances entries u := by
  intro entries
  induction entries with
  | nil =>
    intro u v _
    simp [assignPeaksGo]
  | cons e rest ih =>
    intro u v hv
    obtain ⟨nucleus, shifts⟩ := e
    simp only [assignPeaksGo]
    have hloop := assignShiftsLoop_used_append (predictions nucleus)
      (toleranceFor tolerances nucleus) nucleus
      (List.insertionSort (fun a b => a ≤ b) shifts) u v
      (fun k hk => hv k hk (nucleus, shifts) (List.mem_cons_self _ _))
    rw [hloop.1, hloop.2]
    rw [ih _ v (fun k hk e' he' => hv k hk e' (List.mem_cons_of_mem _ he'))]

/-- Claim C6 (amended): when no `(buffer_id:resonance_id)` key is shared
between the predictions of two different nucleus entries, predictions claimed
under one nucleus have no effect on any other nucleus: `assignPeaks`
processes every nucleus independently, each starting from an empty used set.
(Without that disjointness the shared used set does leak across nuclei; see
the counterexample.) -/
theorem assignPeaks_independent_of_other_nuclei (observedShifts : List (String × List ℝ))
    (buffers : List Buffer) (samplesMap : List (String × Sample))
    (pH temperature ionicStrength : ℝ) (tolerances : List (String × ℝ))
    (hdisj : observedShifts.Pairwise (fun e1 e2 =>
      ∀ k ∈ (generatePredictions buffers samplesMap pH temperature ionicStrength
          e1.1).map predKey,
        k ∉ (generatePredictions buffers samplesMap pH temperature ionicStrength
          e2.1).map predKey)) :
    assignPeaks observedShifts buffers samplesMap pH temperature ionicStrength tolerances =
      observedShifts.map (fun e => (e.1,
        (assignShiftsLoop
          (generatePredictions buffers samplesMap pH temperature ionicStrength e.1)
          (toleranceFor tolerances e.1) e.1
          (List.insertionSort (fun a b => a ≤ b) e.2) []).1)) := by
  unfold assignPeaks
  set predictions := generatePredictions buffers samplesMap pH temperature ionicStrength
    with hpred
  clear_value predictions
  induction observedShifts with
  | nil => simp [assignPeaksGo]
  | cons e rest ih =>
    obtain ⟨hhead, hrest⟩ := List.pairwise_cons.mp hdisj
    obtain ⟨nucleus, shifts⟩ := e
    simp only [assignPeaksGo, List.map_cons]
    obtain ⟨hnd, hsub, hiff⟩ := assignShiftsLoop_invariant (predictions nucleus)
      (toleranceFor tolerances nucleus) nucleus
      (List.insertionSort (fun a b => a ≤ b) shifts) []
    have hused : ∀ k ∈ (assignShiftsLoop (predictions nucleus)
        (toleranceFor tolerances nucleus) nucleus
        (List.insertionSort (fun a b => a ≤ b) shifts) []).2,
        ∀ e' ∈ rest, k ∉ (predictions e'.1).map predKey := by
      intro k hk e' he'
      have hknew : k ∈ newKeys (assignShiftsLoop (predictions nucleus)
          (toleranceFor tolerances nucleus) nucleus
          (List.insertionSort (fun a b => a ≤ b) shifts) []).1 := by
        rcases (hiff k).mp hk with h | h
        · exact h
        · simp at h
      have hkpred := (hsub _ hknew).2
      exact hhead e' he' k hkpred
    have hrw : assignPeaksGo predictions tolerances rest
        (assignShiftsLoop (predictions nucleus) (toleranceFor tolerances nucleus) nucleus
          (List.insertionSort (fun a b => a ≤ b) shifts) []).2 =
        assignPeaksGo predictions tolerances rest [] := by
      have h0 : ([] : List String) ++ (assignShiftsLoop (predictions nucleus)
          (toleranceFor tolerances nucleus) nucleus
          (List.insertionSort (fun a b => a ≤ b) shifts) []).2 =
          (assignShiftsLoop (predictions nucleus) (toleranceFor tolerances nucleus) nucleus
            (List.insertionSort (fun a b => a ≤ b) shifts) []).2 := by
        simp
      rw [← h0]
      exact assignPeaksGo_used_append predictions tolerances rest [] _ hused
    rw [hrw, ih hrest]

/-- A one-sample map with the default reference conditions. -/
noncomputable def cexSamples : List (String × Sample) :=
  [("s1", { reference_temperature_K := 298.15, reference_ionic_strength_M := 0 })]

/-- A buffer with no pKa dependence whose nucleus-A and nucleus-B resonances
share the resonance id `r` (hence the same `b1:r` used-set key). -/
noncomputable def cexBufferShared : Buffer :=
  { buffer_id := "b1"
    buffer_name := "B1"
    sample_id := "s1"
    pKa_parameters := []
    chemical_shifts :=
      [("A", [{ resonance_id := "r"
                description := "resA"
                limiting_shifts :=
                  [{ ionisation_state := 0
                     shift_ppm := .num 1
                     temperature_coefficient_ppm_per_K := none
                     ionic_strength_coefficient_ppm_per_M := none }] }]),
       ("B", [{ resonance_id := "r"
                description := "resB"
                limiting_shifts :=
                  [{ ionisation_state := 0
                     shift_ppm := .num 2
                     temperature_coefficient_ppm_per_K := none
                     ionic_strength_coefficient_ppm_per_M := none }] }])] }

/-- Counterexample to claim C6 as stated: nucleus A's observation claims the
key `b1:r`; nucleus B's own prediction (`b1:r` at 2 ppm, within tolerance of
the observed 2 ppm) is then excluded because the used set is shared across
nuclei, and the B observation stays unassigned. -/
theorem assignPeaks_cross_nucleus_exclusion_cex :
    ((assignPeaks [("A", [1]), ("B", [2])] [cexBufferShared] cexSamples 7 298.15 0 []).map
      (fun e => (e.1, e.2.map (fun a => (a.assigned, a.confidence))))) =
      [("A", [(true, "high")]), ("B", [(false, "none")])] ∧
    (generatePredictions [cexBufferShared] cexSamples 7 298.15 0 "B").map
      (fun p => (predKey p, p.predicted_shift)) = [("b1:r", 2)] := by
  have hpredA : generatePredictions [cexBufferShared] cexSamples 7 298.15 0 "A" =
      [{ buffer_id := "b1", buffer_name := "B1", resonance_id := "r",
         description := "resA", predicted_shift := 1 }] := by
    simp [generatePredictions, predictBufferShifts, getBufferPKaValues,
      cexBufferShared, cexSamples, predictShift, ionisationFractions,
      calculateLimitingShift, getValue, List.lookup, List.insertionSort]
  have hpredB : generatePredictions [cexBufferShared] cexSamples 7 298.15 0 "B" =
      [{ buffer_id := "b1", buffer_name := "B1", resonance_id := "r",
         description := "resB", predicted_shift := 2 }] := by
    simp [generatePredictions, predictBufferShifts, getBufferPKaValues,
      cexBufferShared, cexSamples, predictShift, ionisationFractions,
      calculateLimitingShift, getValue, List.lookup, List.insertionSort]
  have hkey : ("b1":String) ++ ":" ++ "r" = "b1:r" := rfl
  refine ⟨?_, by rw [hpredB]; simp [predKey, hkey]⟩
  have htolA : toleranceFor [] "A" = 1.0 := by
    simp [toleranceFor, DEFAULT_TOLERANCES, List.lookup]
  have htolB : toleranceFor [] "B" = 1.0 := by
    simp [toleranceFor, DEFAULT_TOLERANCES, List.lookup]
  have hconfA : calculateConfidence 0 1.0 none = "high" := by
    norm_num [calculateConfidence, gtOpt]
  have hassignA : assignSingleShift 1
      [{ buffer_id := "b1", buffer_name := "B1", resonance_id := "r",
         description := "resA", predicted_shift := 1 : Prediction }] 1.0 =
      { observed_shift := 1
        assigned := true
        confidence := "high"
        buffer_id := some "b1"
        buffer_name := some "B1"
        resonance_id := some "r"
        description := some "resA"
        predicted_shift := some 1
        residual := some 0
        nearest := none
        alternatives := []
        nucleus := none } := by
    simp [assignSingleShift, scoreAndSort, List.insertionSort,
      List.orderedInsert, hconfA]
  have hassignB : assignSingleShift 2 ([] : List Prediction) 1.0 =
      noPredictionsAssignment 2 := rfl
  simp only [assignPeaks, assignPeaksGo, assignShiftsLoop, hpredA, hpredB,
    htolA, htolB]
  simp [List.insertionSort, List.orderedInsert, hassignA, hassignB,
    assignmentKey, predKey, hkey, noPredictionsAssignment, List.contains,
    List.elem]

/-- A buffer like `cexBufferShared` but whose nucleus-A and nucleus-B
resonances carry distinct ids `r1` and `r2` (distinct used-set keys). -/
noncomputable def cexBufferDistinct : Buffer :=
  { buffer_id := "b1"
    buffer_name := "B1"
    sample_id := "s1"
    pKa_parameters := []
    chemical_shifts :=
      [("A", [{ resonance_id := "r1"
                description := "resA"
                limiting_shifts :=
                  [{ ionisation_state := 0
                     shift_ppm := .num 1
                     temperature_coefficient_ppm_per_K := none
                     ionic_strength_coefficient_ppm_per_M := none }] }]),
       ("B", [{ resonance_id := "r2"
                description := "resB"
                limiting_shifts :=
                  [{ ionisation_state := 0
                     shift_ppm := .num 2
                     temperature_coefficient_ppm_per_K := none
                     ionic_strength_coefficient_ppm_per_M := none }] }])] }

/-- Witness for the amended C6 theorem: with distinct keys across the two
nuclei the disjointness hypothesis holds and the per-nucleus independence
conclusion follows. -/
theorem assignPeaks_independent_of_other_nuclei_witness :
    ([("A", [(1:ℝ)]), ("B", [2])]).Pairwise (fun e1 e2 =>
      ∀ k ∈ (generatePredictions [cexBufferDistinct] cexSamples 7 298.15 0 e1.1).map
        predKey,
        k ∉ (generatePredictions [cexBufferDistinct] cexSamples 7 298.15 0 e2.1).map
          predKey) ∧
    assignPeaks [("A", [1]), ("B", [2])] [cexBufferDistinct] cexSamples 7 298.15 0 [] =
      ([("A", [(1:ℝ)]), ("B", [2])]).map (fun e => (e.1,
        (assignShiftsLoop
          (generatePredictions [cexBufferDistinct] cexSamples 7 298.15 0 e.1)
          (toleranceFor [] e.1) e.1
          (List.insertionSort (fun a b => a ≤ b) e.2) []).1)) := by
  have hpredA : generatePredictions [cexBufferDistinct] cexSamples 7 298.15 0 "A" =
      [{ buffer_id := "b1", buffer_name := "B1", resonance_id := "r1",
         description := "resA", predicted_shift := 1 }] := by
    simp [generatePredictions, predictBufferShifts, getBufferPKaValues,
      cexBufferDistinct, cexSamples, predictShift, ionisationFractions,
      calculateLimitingShift, getValue, List.lookup, List.insertionSort]
  have hpredB : generatePredictions [cexBufferDistinct] cexSamples 7 298.15 0 "B" =
      [{ buffer_id := "b1", buffer_name := "B1", resonance_id := "r2",
         description := "resB", predicted_shift := 2 }] := by
    simp [generatePredictions, predictBufferShifts, getBufferPKaValues,
      cexBufferDistinct, cexSamples, predictShift, ionisationFractions,
      calculateLimitingShift, getValue, List.lookup, List.insertionSort]
  have hk1 : ("b1":String) ++ ":" ++ "r1" = "b1:r1" := rfl
  have hk2 : ("b1":String) ++ ":" ++ "r2" = "b1:r2" := rfl
  have hdisj : ([("A", [(1:ℝ)]), ("B", [2])]).Pairwise (fun e1 e2 =>
      ∀ k ∈ (generatePredictions [cexBufferDistinct] cexSamples 7 298.15 0 e1.1).map
        predKey,
        k ∉ (generatePredictions [cexBufferDistinct] cexSamples 7 298.15 0 e2.1).map
          predKey) := by
    simp [List.pairwise_cons, hpredA, hpredB, predKey, hk1, hk2]
  exact ⟨hdisj, assignPeaks_independent_of_other_nuclei _ _ _ _ _ _ _ hdisj⟩

/-! ## Claim C9 -/

/-- When every observation list is empty, the outer assignment loop returns
one empty assignment list per nucleus, whatever the used set. -/
lemma assignPeaksGo_all_empty (predictions : String → List Prediction)
    (tolerances : List (String × ℝ)) :
    ∀ (entries : List (String × List ℝ)) (used : List String),
      (∀ e ∈ entries, e.2 = ([] : List ℝ)) →
      assignPeaksGo predictions tolerances entries used =
        entries.map (fun e => (e.1, [])) := by
  intro entries
  induction entries with
  | nil =>
    intro used _
    simp [assignPeaksGo]
  | cons e rest ih =>
    intro used hobs
    obtain ⟨nucleus, shifts⟩ := e
    have hsh : shifts = [] := hobs (nucleus, shifts) (List.mem_cons_self _ _)
    subst hsh
    simp only [assignPeaksGo, List.map_cons]
    rw [show List.insertionSort (fun a b : ℝ => a ≤ b) [] = [] from rfl]
    rw [show assignShiftsLoop (predictions nucleus) (toleranceFor tolerances nucleus)
      nucleus [] used = ([], used) from rfl]
    rw [ih used (fun e' he' => hobs e' (List.mem_cons_of_mem _ he'))]

/-- Claim C9: with zero observations (every per-nucleus observation list
empty, including the no-nuclei case), `assignPeaks` returns empty per-nucleus
assignment lists without failing, and `fitParameters` returns the
`success:false` result whose error message says no peaks could be assigned —
identically for every optimizer, i.e. the optimizer is never invoked. -/
theorem fitParameters_zero_observations (observedShifts : List (String × List ℝ))
    (buffers : List Buffer) (samplesMap : List (String × Sample))
    (pH temperature ionicStrength : ℝ) (tolerances : List (String × ℝ))
    (initialConditions : InitialConditions) (opts : FitOptions)
    (hobs : ∀ e ∈ observedShifts, e.2 = ([] : List ℝ)) :
    assignPeaks observedShifts buffers samplesMap pH temperature ionicStrength
      tolerances = observedShifts.map (fun e => (e.1, [])) ∧
    (∀ optimizer : Optimizer,
      fitParameters optimizer observedShifts buffers samplesMap initialConditions opts =
        FitResult.noPeaks "No peaks could be assigned to buffer resonances"
          (observedShifts.map (fun e => (e.1, [])))) ∧
    (∀ opt1 opt2 : Optimizer,
      fitParameters opt1 observedShifts buffers samplesMap initialConditions opts =
        fitParameters opt2 observedShifts buffers samplesMap initialConditions opts) := by
  have hassign : ∀ (pH' temperature' ionicStrength' : ℝ) (tolerances' : List (String × ℝ)),
      assignPeaks observedShifts buffers samplesMap pH' temperature' ionicStrength'
        tolerances' = observedShifts.map (fun e => (e.1, [])) := by
    intro pH' temperature' ionicStrength' tolerances'
    unfold assignPeaks
    exact assignPeaksGo_all_empty _ _ observedShifts [] hobs
  have hpeaks : getAssignedPeaksForFitting (observedShifts.map (fun e => (e.1, []))) =
      [] := by
    unfold getAssignedPeaksForFitting
    simp
    intro a b x x1 _ _ hb
    subst hb
    simp
  have hfit : ∀ optimizer : Optimizer,
      fitParameters optimizer observedShifts buffers samplesMap initialConditions opts =
        FitResult.noPeaks "No peaks could be assigned to buffer resonances"
          (observedShifts.map (fun e => (e.1, []))) := by
    intro optimizer
    simp only [fitParameters]
    rw [hassign opts.initialPH initialConditions.temperature
      initialConditions.ionicStrength [], hpeaks]
    simp
  exact ⟨hassign pH temperature ionicStrength tolerances, hfit,
    fun opt1 opt2 => (hfit opt1).trans (hfit opt2).symm⟩

/-- Witness for C9: one nucleus with an empty observation list, a real buffer
in scope, and two different optimizers. -/
theorem fitParameters_zero_observations_witness :
    (∀ e ∈ [("1H", ([] : List ℝ))], e.2 = ([] : List ℝ)) ∧
    assignPeaks [("1H", [])] [cexBufferShared] cexSamples 7 298.15 0 [] =
      [("1H", [])] ∧
    (fitParameters (fun _ _ initialValues _ _ _ _ => .ok (initialValues, 5))
        [("1H", [])] [cexBufferShared] cexSamples
        { pH := none, temperature := 298.15, ionicStrength := 0, referenceOffsets := [] }
        { refineTemperature := false, refineIonicStrength := false,
          refineReferences := [], maxIterations := 100, tolerance := 1e-8,
          initialPH := 7 }).success = false := by
  have hobs : ∀ e ∈ [("1H", ([] : List ℝ))], e.2 = ([] : List ℝ) := by
    simp
  have h := fitParameters_zero_observations [("1H", [])] [cexBufferShared] cexSamples
    7 298.15 0 []
    { pH := none, temperature := 298.15, ionicStrength := 0, referenceOffsets := [] }
    { refineTemperature := false, refineIonicStrength := false,
      refineReferences := [], maxIterations := 100, tolerance := 1e-8,
      initialPH := 7 } hobs
  refine ⟨hobs, by simpa using h.1, ?_⟩
  rw [h.2.1 (fun _ _ initialValues _ _ _ _ => .ok (initialValues, 5))]
  rfl

/-! ## Claims C2 and C3 -/

/-- The initial assignment set computed at the top of `fitParameters`. -/
noncomputable def initialAssignments (observedShifts : List (String × List ℝ))
    (buffers : List Buffer) (samplesMap : List (String × Sample))
    (initialConditions : InitialConditions) (opts : FitOptions) :
    List (String × List Assignment) :=
  assignPeaks observedShifts buffers samplesMap opts.initialPH
    initialConditions.temperature initialConditions.ionicStrength []

/-- The assigned peaks `fitParameters` fits against. -/
noncomputable def initialAssignedPeaks (observedShifts : List (String × List ℝ))
    (buffers : List Buffer) (samplesMap : List (String × Sample))
    (initialConditions : InitialConditions) (opts : FitOptions) : List Peak :=
  getAssignedPeaksForFitting
    (initialAssignments observedShifts buffers samplesMap initialConditions opts)

/-- The `baseConditions` object built inside `fitParameters`. -/
noncomputable def fitBaseConditions (initialConditions : InitialConditions)
    (opts : FitOptions) : Conditions :=
  { temperature := initialConditions.temperature
    ionicStrength := initialConditions.ionicStrength
    referenceOffsets := initialConditions.referenceOffsets
    pH := opts.initialPH }

/-- The number of free parameters `fitParameters` would fit. -/
noncomputable def nFreeParameters (initialConditions : InitialConditions)
    (opts : FitOptions) : ℕ :=
  (buildParameterVector (fitBaseConditions initialConditions opts) opts).1.length

/-- The error message of the underdetermined failure shape. -/
def underdeterminedMessage (nObs nParams : ℕ) (dof : ℤ) : String :=
  s!"Underdetermined system: {nObs} observations, {nParams} parameters (DoF = {dof})"

/-- The degrees-of-freedom guard of `fitParameters`: with at least one
assigned peak and `DoF < 0` the call returns the underdetermined failure
shape carrying the counts, for every optimizer. -/
lemma fitParameters_dof_guard (optimizer : Optimizer)
    (observedShifts : List (String × List ℝ)) (buffers : List Buffer)
    (samplesMap : List (String × Sample)) (initialConditions : InitialConditions)
    (opts : FitOptions)
    (hne : initialAssignedPeaks observedShifts buffers samplesMap initialConditions
      opts ≠ [])
    (hdof : ((initialAssignedPeaks observedShifts buffers samplesMap initialConditions
        opts).length : ℤ) - (nFreeParameters initialConditions opts : ℤ) < 0) :
    fitParameters optimizer observedShifts buffers samplesMap initialConditions opts =
      FitResult.underdetermined
        (underdeterminedMessage
          (initialAssignedPeaks observedShifts buffers samplesMap initialConditions
            opts).length
          (nFreeParameters initialConditions opts)
          (((initialAssignedPeaks observedShifts buffers samplesMap initialConditions
            opts).length : ℤ) - (nFreeParameters initialConditions opts : ℤ)))
        (initialAssignments observedShifts buffers samplesMap initialConditions opts)
        (initialAssignedPeaks observedShifts buffers samplesMap initialConditions
          opts).length
        (nFreeParameters initialConditions opts)
        (((initialAssignedPeaks observedShifts buffers samplesMap initialConditions
          opts).length : ℤ) - (nFreeParameters initialConditions opts : ℤ)) := by
  have hlen : ¬ ((initialAssignedPeaks observedShifts buffers samplesMap
      initialConditions opts).length = 0) :=
    fun h => hne (List.length_eq_zero.mp h)
  unfold initialAssignedPeaks initialAssignments at hlen
  unfold initialAssignedPeaks initialAssignments nFreeParameters fitBaseConditions
    at hdof
  unfold initialAssignedPeaks initialAssignments nFreeParameters fitBaseConditions
  simp only [fitParameters, underdeterminedMessage]
  rw [if_neg hlen, if_pos hdof]

/-- Claim C2: whenever `fitParameters` computes
`DoF = nAssignedPeaks - nFreeParameters` with `DoF < 0`, it returns the
`success:false` underdetermined result carrying exactly those observation and
parameter counts and the DoF itself, and the result is the same for every
optimizer — the Levenberg-Marquardt solver is never invoked. -/
theorem fitParameters_underdetermined_reports_counts (optimizer : Optimizer)
    (observedShifts : List (String × List ℝ)) (buffers : List Buffer)
    (samplesMap : List (String × Sample)) (initialConditions : InitialConditions)
    (opts : FitOptions)
    (hne : initialAssignedPeaks observedShifts buffers samplesMap initialConditions
      opts ≠ [])
    (hdof : ((initialAssignedPeaks observedShifts buffers samplesMap initialConditions
        opts).length : ℤ) - (nFreeParameters initialConditions opts : ℤ) < 0) :
    (fitParameters optimizer observedShifts buffers samplesMap initialConditions opts =
      FitResult.underdetermined
        (underdeterminedMessage
          (initialAssignedPeaks observedShifts buffers samplesMap initialConditions
            opts).length
          (nFreeParameters initialConditions opts)
          (((initialAssignedPeaks observedShifts buffers samplesMap initialConditions
            opts).length : ℤ) - (nFreeParameters initialConditions opts : ℤ)))
        (initialAssignments observedShifts buffers samplesMap initialConditions opts)
        (initialAssignedPeaks observedShifts buffers samplesMap initialConditions
          opts).length
        (nFreeParameters initialConditions opts)
        (((initialAssignedPeaks observedShifts buffers samplesMap initialConditions
          opts).length : ℤ) - (nFreeParameters initialConditions opts : ℤ))) ∧
    (∀ opt2 : Optimizer,
      fitParameters opt2 observedShifts buffers samplesMap initialConditions opts =
        fitParameters optimizer observedShifts buffers samplesMap initialConditions
          opts) := by
  have hcore := fun (o : Optimizer) => fitParameters_dof_guard o observedShifts buffers
    samplesMap initialConditions opts hne hdof
  exact ⟨hcore optimizer, fun opt2 => (hcore opt2).trans (hcore optimizer).symm⟩

/-- A concrete buffer with one pH-independent 1H resonance at 3 ppm. -/
noncomputable def cBuffer : Buffer :=
  { buffer_id := "b1"
    buffer_name := "B1"
    sample_id := "s1"
    pKa_parameters := []
    chemical_shifts :=
      [("1H", [{ resonance_id := "r1"
                 description := "res"
                 limiting_shifts :=
                   [{ ionisation_state := 0
                      shift_ppm := .num 3
                      temperature_coefficient_ppm_per_K := none
                      ionic_strength_coefficient_ppm_per_M := none }] }])] }

/-- One observed 1H shift at exactly the predicted 3 ppm. -/
noncomputable def cObs : List (String × List ℝ) := [("1H", [3])]

/-- Concrete initial conditions at the reference state. -/
noncomputable def cInit : InitialConditions :=
  { pH := none, temperature := 298.15, ionicStrength := 0, referenceOffsets := [] }

/-- Options refining temperature and ionic strength (3 free parameters). -/
noncomputable def cOptsTI : FitOptions :=
  { refineTemperature := true
    refineIonicStrength := true
    refineReferences := []
    maxIterations := 100
    tolerance := 1e-8
    initialPH := 7 }

/-- Options refining temperature only (2 free parameters). -/
noncomputable def cOptsT : FitOptions :=
  { refineTemperature := true
    refineIonicStrength := false
    refineReferences := []
    maxIterations := 100
    tolerance := 1e-8
    initialPH := 7 }

/-- Options with pH as the only free parameter. -/
noncomputable def cOptsBase : FitOptions :=
  { refineTemperature := false
    refineIonicStrength := false
    refineReferences := []
    maxIterations := 100
    tolerance := 1e-8
    initialPH := 7 }

/-- A solver stub that returns the initial values after 5 iterations. -/
def stubOptimizer : Optimizer :=
  fun _ _ initialValues _ _ _ _ => .ok (initialValues, 5)

/-- A solver stub that throws. -/
def failOptimizer : Optimizer :=
  fun _ _ _ _ _ _ _ => .error "solver failure"

/-- The assignment record produced for the concrete 1H observation. -/
noncomputable def cAssignedRecord : Assignment :=
  { observed_shift := 3
    assigned := true
    confidence := "high"
    buffer_id := some "b1"
    buffer_name := some "B1"
    resonance_id := some "r1"
    description := some "res"
    predicted_shift := some 3
    residual := some 0
    nearest := none
    alternatives := []
    nucleus := some "1H" }

/-- The same record before the per-nucleus loop attaches the nucleus. -/
noncomputable def cAssignedRecordNoNucleus : Assignment :=
  { cAssignedRecord with nucleus := none }

/-- Full evaluation of the assignment round on the concrete input. -/
lemma cAssign_eval : assignPeaks cObs [cBuffer] cexSamples 7 298.15 0 [] =
    [("1H", [cAssignedRecord])] := by
  have hpred : generatePredictions [cBuffer] cexSamples 7 298.15 0 "1H" =
      [{ buffer_id := "b1", buffer_name := "B1", resonance_id := "r1",
         description := "res", predicted_shift := 3 }] := by
    simp [generatePredictions, predictBufferShifts, getBufferPKaValues,
      cBuffer, cexSamples, predictShift, ionisationFractions,
      calculateLimitingShift, getValue, List.lookup, List.insertionSort]
  have htol : toleranceFor [] "1H" = 0.5 := by
    simp [toleranceFor, DEFAULT_TOLERANCES, List.lookup]
  have hconf : calculateConfidence 0 0.5 none = "high" := by
    norm_num [calculateConfidence, gtOpt]
  have hassign : assignSingleShift 3
      [{ buffer_id := "b1", buffer_name := "B1", resonance_id := "r1",
         description := "res", predicted_shift := 3 : Prediction }] 0.5 =
      cAssignedRecordNoNucleus := by
    simp [assignSingleShift, scoreAndSort, List.insertionSort,
      List.orderedInsert, hconf, cAssignedRecordNoNucleus, cAssignedRecord]
  simp only [assignPeaks, cObs, assignPeaksGo, assignShiftsLoop, hpred, htol]
  simp [List.insertionSort, List.orderedInsert, hassign,
    cAssignedRecordNoNucleus, cAssignedRecord]

/-- The single assigned peak of the concrete input. -/
noncomputable def cPeak : Peak :=
  { nucleus := "1H", observed_shift := 3, buffer_id := "b1", resonance_id := "r1",
    predicted_shift := 3 }

/-- Evaluation of the initial assigned peaks of `fitParameters` on the
concrete input, for any of the concrete option records (all share
`initialPH = 7`). -/
lemma cPeaks_eval (opts : FitOptions) (hpH : opts.initialPH = 7) :
    initialAssignedPeaks cObs [cBuffer] cexSamples cInit opts = [cPeak] := by
  unfold initialAssignedPeaks initialAssignments
  rw [hpH]
  rw [show cInit.temperature = 298.15 from rfl, show cInit.ionicStrength = 0 from rfl]
  rw [cAssign_eval]
  simp [getAssignedPeaksForFitting, cAssignedRecord, cPeak]

/-- The concrete option records give 3, 2 and 1 free parameters. -/
lemma cParams_eval : nFreeParameters cInit cOptsTI = 3 ∧
    nFreeParameters cInit cOptsT = 2 ∧ nFreeParameters cInit cOptsBase = 1 := by
  refine ⟨?_, ?_, ?_⟩ <;>
    simp [nFreeParameters, fitBaseConditions, buildParameterVector, buildRefsLoop,
      cOptsTI, cOptsT, cOptsBase, cInit]

/-- Witness for C2 (Scenario C): one assigned observation against three free
parameters gives DoF = -2; the reported counts are 1 observation, 3
parameters, DoF -2, and a throwing optimizer yields the same result as a
succeeding one. -/
theorem fitParameters_underdetermined_reports_counts_witness :
    initialAssignedPeaks cObs [cBuffer] cexSamples cInit cOptsTI ≠ [] ∧
    ((initialAssignedPeaks cObs [cBuffer] cexSamples cInit cOptsTI).length : ℤ) -
      (nFreeParameters cInit cOptsTI : ℤ) < 0 ∧
    (fitParameters stubOptimizer cObs [cBuffer] cexSamples cInit cOptsTI).success =
      false ∧
    (fitParameters stubOptimizer cObs [cBuffer] cexSamples cInit
      cOptsTI).nObservationsOut = some 1 ∧
    (fitParameters stubOptimizer cObs [cBuffer] cexSamples cInit
      cOptsTI).nParametersOut = some 3 ∧
    (fitParameters stubOptimizer cObs [cBuffer] cexSamples cInit
      cOptsTI).degreesOfFreedomOut = some (-2) ∧
    fitParameters failOptimizer cObs [cBuffer] cexSamples cInit cOptsTI =
      fitParameters stubOptimizer cObs [cBuffer] cexSamples cInit cOptsTI := by
  have hpk := cPeaks_eval cOptsTI rfl
  have hnp := cParams_eval.1
  have hne : initialAssignedPeaks cObs [cBuffer] cexSamples cInit cOptsTI ≠ [] := by
    rw [hpk]
    simp
  have hdof : ((initialAssignedPeaks cObs [cBuffer] cexSamples cInit
      cOptsTI).length : ℤ) - (nFreeParameters cInit cOptsTI : ℤ) < 0 := by
    rw [hpk, hnp]
    norm_num
  have h := fitParameters_underdetermined_reports_counts stubOptimizer cObs [cBuffer]
    cexSamples cInit cOptsTI hne hdof
  refine ⟨hne, hdof, ?_, ?_, ?_, ?_, h.2 failOptimizer⟩
  · rw [h.1]
    rfl
  · rw [h.1]
    simp [FitResult.nObservationsOut, hpk]
  · rw [h.1]
    simp [FitResult.nParametersOut, hnp]
  · rw [h.1]
    simp [FitResult.degreesOfFreedomOut, hpk, hnp]

/-- Claim C3 (amended): the validation check `checkDegreesOfFreedom` reports
DoF ≤ 0 (including DoF = 0) as invalid, with the exact DoF; the fitter itself
detects and fails before any optimizer call exactly when DoF < 0 strictly —
the DoF = 0 case is not failed by `fitParameters` (optimization proceeds; see
the counterexample). -/
theorem underdetermined_detection (nObservations nParameters : ℕ)
    (optimizer : Optimizer) (observedShifts : List (String × List ℝ))
    (buffers : List Buffer) (samplesMap : List (String × Sample))
    (initialConditions : InitialConditions) (opts : FitOptions)
    (hne : initialAssignedPeaks observedShifts buffers samplesMap initialConditions
      opts ≠ [])
    (hdof : ((initialAssignedPeaks observedShifts buffers samplesMap initialConditions
        opts).length : ℤ) - (nFreeParameters initialConditions opts : ℤ) < 0) :
    ((checkDegreesOfFreedom nObservations nParameters).valid = false ↔
      (nObservations : ℤ) - (nParameters : ℤ) ≤ 0) ∧
    ((checkDegreesOfFreedom nObservations nParameters).degreesOfFreedom =
      (nObservations : ℤ) - (nParameters : ℤ)) ∧
    fitParameters optimizer observedShifts buffers samplesMap initialConditions opts =
      FitResult.underdetermined
        (underdeterminedMessage
          (initialAssignedPeaks observedShifts buffers samplesMap initialConditions
            opts).length
          (nFreeParameters initialConditions opts)
          (((initialAssignedPeaks observedShifts buffers samplesMap initialConditions
            opts).length : ℤ) - (nFreeParameters initialConditions opts : ℤ)))
        (initialAssignments observedShifts buffers samplesMap initialConditions opts)
        (initialAssignedPeaks observedShifts buffers samplesMap initialConditions
          opts).length
        (nFreeParameters initialConditions opts)
        (((initialAssignedPeaks observedShifts buffers samplesMap initialConditions
          opts).length : ℤ) - (nFreeParameters initialConditions opts : ℤ)) := by
  refine ⟨?_, rfl, fitParameters_dof_guard optimizer observedShifts buffers samplesMap
    initialConditions opts hne hdof⟩
  have hv : (checkDegreesOfFreedom nObservations nParameters).valid =
      decide ((nObservations : ℤ) - (nParameters : ℤ) > 0) := rfl
  rw [hv]
  simp [not_lt]

/-- Witness for the amended C3: one assigned observation against two free
parameters (DoF = -1): the validation check flags it and the fitter fails
with `success:false` before any optimizer call. -/
theorem underdetermined_detection_witness :
    initialAssignedPeaks cObs [cBuffer] cexSamples cInit cOptsT ≠ [] ∧
    ((initialAssignedPeaks cObs [cBuffer] cexSamples cInit cOptsT).length : ℤ) -
      (nFreeParameters cInit cOptsT : ℤ) < 0 ∧
    (checkDegreesOfFreedom 1 2).valid = false ∧
    (fitParameters stubOptimizer cObs [cBuffer] cexSamples cInit cOptsT).success =
      false := by
  have hpk := cPeaks_eval cOptsT rfl
  have hnp := cParams_eval.2.1
  have hne : initialAssignedPeaks cObs [cBuffer] cexSamples cInit cOptsT ≠ [] := by
    rw [hpk]
    simp
  have hdof : ((initialAssignedPeaks cObs [cBuffer] cexSamples cInit
      cOptsT).length : ℤ) - (nFreeParameters cInit cOptsT : ℤ) < 0 := by
    rw [hpk, hnp]
    norm_num
  have h := underdetermined_detection 1 2 stubOptimizer cObs [cBuffer] cexSamples
    cInit cOptsT hne hdof
  refine ⟨hne, hdof, h.1.mpr (by norm_num), ?_⟩
  rw [h.2.2]
  rfl

/-- Counterexample to claim C3 as stated: with exactly DoF = 0 (one assigned
observation, pH the only free parameter) `fitParameters` does not fail — the
optimizer is invoked (a succeeding solver yields `success:true` and a
throwing solver changes the outcome to `success:false`), while the separate
validation check does flag DoF = 0 as invalid. -/
theorem fitParameters_dof_zero_proceeds_cex :
    (fitParameters stubOptimizer cObs [cBuffer] cexSamples cInit cOptsBase).success =
      true ∧
    (fitParameters stubOptimizer cObs [cBuffer] cexSamples cInit
      cOptsBase).degreesOfFreedomOut = some 0 ∧
    (fitParameters failOptimizer cObs [cBuffer] cexSamples cInit cOptsBase).success =
      false ∧
    (checkDegreesOfFreedom 1 1).valid = false := by
  have hgafp : getAssignedPeaksForFitting [("1H", [cAssignedRecord])] = [cPeak] := by
    simp [getAssignedPeaksForFitting, cAssignedRecord, cPeak]
  refine ⟨?_, ?_, ?_, by decide⟩
  · simp only [fitParameters]
    simp [cOptsBase, cInit, cAssign_eval, hgafp, buildParameterVector, buildRefsLoop,
      stubOptimizer, extractConditions]
    simp [createResidualFunction, residualsLoop, extractConditions, cPeak, cBuffer,
      cexSamples, getBufferPKaValues, predictShift, ionisationFractions,
      calculateLimitingShift, getValue, List.lookup, List.insertionSort,
      FitResult.success]
  · simp only [fitParameters]
    simp [cOptsBase, cInit, cAssign_eval, hgafp, buildParameterVector, buildRefsLoop,
      stubOptimizer, extractConditions]
    simp [createResidualFunction, residualsLoop, extractConditions, cPeak, cBuffer,
      cexSamples, getBufferPKaValues, predictShift, ionisationFractions,
      calculateLimitingShift, getValue, List.lookup, List.insertionSort,
      FitResult.degreesOfFreedomOut]
  · simp only [fitParameters]
    simp [cOptsBase, cInit, cAssign_eval, hgafp, buildParameterVector, buildRefsLoop,
      failOptimizer, FitResult.success]

/-! ## Claim C8 -/

/-- Claim C8 (amended): `calculateParameterUncertainties` always returns one
entry per parameter, never a negative (or, in the JS sense, undefined)
entry — each entry is either a square root or the clamp value 0 — and when
the Jacobian chain throws (the residual function fails) it degrades to the
all-zero vector instead of failing.  A singular JᵗJ, however, does not raise
and does not generally produce the all-zero vector: the Cholesky `1e-10`
diagonal floor yields finite positive uncertainties (see the
counterexample). -/
theorem calculateParameterUncertainties_nonneg (params : List ℝ)
    (residualFn : List ℝ → Except String (List ℝ)) (residualVariance step : ℝ) :
    (calculateParameterUncertainties params residualFn residualVariance step).length =
      params.length ∧
    (∀ u ∈ calculateParameterUncertainties params residualFn residualVariance step,
      0 ≤ u) ∧
    (∀ e, calculateJacobian residualFn params step = .error e →
      calculateParameterUncertainties params residualFn residualVariance step =
        params.map (fun _ => 0)) := by
  unfold calculateParameterUncertainties
  cases hj : calculateJacobian residualFn params step with
  | error e =>
    refine ⟨by simp, ?_, fun _ _ => rfl⟩
    intro u hu
    rcases List.mem_map.mp hu with ⟨_, _, rfl⟩
    exact le_refl 0
  | ok jacobian =>
    refine ⟨by simp, ?_, ?_⟩
    · intro u hu
      rcases List.mem_mapIdx.mp hu with ⟨i, hi, rfl⟩
      by_cases hv : ((invertSymmetricMatrix (matrixTransposeProduct jacobian)).getD i
          []).getD i 0 * residualVariance > 0
      · rw [if_pos hv]
        exact Real.sqrt_nonneg _
      · rw [if_neg hv]
    · intro e he
      exact absurd he (by simp)

/-- A residual function that always throws. -/
def cexFailResidualFn : List ℝ → Except String (List ℝ) := fun _ => .error "boom"

/-- Witness for the amended C8: a throwing residual function makes the
Jacobian fail and the uncertainties degrade to the all-zero vector. -/
theorem calculateParameterUncertainties_nonneg_witness :
    calculateJacobian cexFailResidualFn [0] (1e-6) = .error "boom" ∧
    calculateParameterUncertainties [0] cexFailResidualFn 1 (1e-6) = [0] := by
  have hjac : calculateJacobian cexFailResidualFn [0] (1e-6) = .error "boom" := by
    simp [calculateJacobian, cexFailResidualFn]
  refine ⟨hjac, ?_⟩
  have h := (calculateParameterUncertainties_nonneg [0] cexFailResidualFn 1
    (1e-6)).2.2 "boom" hjac
  simpa using h

/-- A residual function that is constant (zero Jacobian, singular JᵗJ). -/
noncomputable def cexConstResidualFn : List ℝ → Except String (List ℝ) :=
  fun _ => .ok [0]

/-- Counterexample to the singular-matrix clause of claim C8: a constant
residual function gives the zero Jacobian and the singular (zero) JᵗJ, yet
with reduced chi-squared 1 the returned uncertainty vector is strictly
positive — the `1e-10` diagonal floor produces a finite value instead of the
claimed all-zero vector. -/
theorem calculateParameterUncertainties_singular_cex :
    calculateJacobian cexConstResidualFn [0] (1e-6) = .ok [[0]] ∧
    matrixTransposeProduct [[(0:ℝ)]] = [[0]] ∧
    (calculateParameterUncertainties [0] cexConstResidualFn 1 (1e-6)).length = 1 ∧
    0 < (calculateParameterUncertainties [0] cexConstResidualFn 1 (1e-6)).getD 0 0 := by
  have hr1 : List.range 1 = [0] := rfl
  have hjac : calculateJacobian cexConstResidualFn [0] (1e-6) = .ok [[0]] := by
    simp [calculateJacobian, jacobianColumns, cexConstResidualFn, bumped, hr1]
  have hJTJ : matrixTransposeProduct [[(0:ℝ)]] = [[0]] := by
    simp [matrixTransposeProduct, hr1]
  have hL : cholRowsGo [[(0:ℝ)]] [0] [] = [[Real.sqrt 1e-10]] := by
    simp [cholRowsGo, cholRowBuildGo, hr1]
  have hcov : invertSymmetricMatrix [[(0:ℝ)]] =
      [[(1 / Real.sqrt 1e-10) * (1 / Real.sqrt 1e-10)]] := by
    simp [invertSymmetricMatrix, hr1, hL, linvColGo]
  have hpos : (0:ℝ) < (1 / Real.sqrt 1e-10) * (1 / Real.sqrt 1e-10) := by
    have h10 : (0:ℝ) < Real.sqrt 1e-10 := Real.sqrt_pos.mpr (by norm_num)
    positivity
  have hun : calculateParameterUncertainties [0] cexConstResidualFn 1 (1e-6) =
      [Real.sqrt ((1 / Real.sqrt 1e-10) * (1 / Real.sqrt 1e-10))] := by
    simp [calculateParameterUncertainties, hjac, hJTJ, hcov, mul_one, hpos]
    exact fun h => h.symm
  refine ⟨hjac, hJTJ, by rw [hun]; rfl, ?_⟩
  rw [hun]
  simpa using Real.sqrt_pos.mpr hpos

end NmrPH
